import Mathlib

/-!
Verification development for the redox-fatfs FAT12/FAT16/FAT32 driver.

The Rust sources are shallowly embedded: the disk becomes a byte-addressable
function, stateful operations become explicit state passing, machine integers
become Nat with explicit reductions modulo two to the width wherever the Rust
code truncates or wraps, and fallible operations return Except.  Block-buffered
I/O through Cursor objects in the source is embedded as direct byte access at
the corresponding absolute offsets; the block-granular read-modify-write
structure of write_to and the counting loop of read_at are modelled faithfully,
including the fixed intra-block offset that the source reuses across loop
iterations.
-/

namespace RedoxFatfs

set_option maxHeartbeats 1000000

/-- Decidable equality for Except results, used to evaluate the model at
concrete inputs. -/
instance instDecidableEqExcept {ε : Type u} {α : Type v} [DecidableEq ε]
    [DecidableEq α] : DecidableEq (Except ε α)
  | Except.ok a, Except.ok b =>
    if h : a = b then Decidable.isTrue (by rw [h])
    else Decidable.isFalse (by intro hh; cases hh; exact h rfl)
  | Except.error a, Except.error b =>
    if h : a = b then Decidable.isTrue (by rw [h])
    else Decidable.isFalse (by intro hh; cases hh; exact h rfl)
  | Except.ok _, Except.error _ => Decidable.isFalse (by intro hh; cases hh)
  | Except.error _, Except.ok _ => Decidable.isFalse (by intro hh; cases hh)

/-- Modelled from the spec: the crate root defining the global BLOCK_SIZE
constant is not among the provided sources (only use BLOCK_SIZE remains).
Section 4.1 of the specification states that the underlying disk admits only
sector-aligned transfers of one logical block of at least 4096 bytes, so the
logical block size is modelled as 4096. -/
def BLOCK_SIZE : Nat := 4096

/-- A disk is a byte-addressable store: absolute byte offset to byte value. -/
def Disk := Nat → Nat

/-- Read one byte. -/
def readU8 (d : Disk) (o : Nat) : Nat := d o % 256

/-- Read a little-endian u16. -/
def readU16 (d : Disk) (o : Nat) : Nat := readU8 d o + readU8 d (o + 1) * 256

/-- Read a little-endian u32. -/
def readU32 (d : Disk) (o : Nat) : Nat :=
  readU8 d o + readU8 d (o + 1) * 256 + readU8 d (o + 2) * 65536 +
    readU8 d (o + 3) * 16777216

/-- Write one byte. -/
def writeU8 (d : Disk) (o v : Nat) : Disk :=
  fun x => if x = o then v % 256 else d x

/-- Write a little-endian u16. -/
def writeU16 (d : Disk) (o v : Nat) : Disk :=
  writeU8 (writeU8 d o (v % 256)) (o + 1) (v / 256 % 256)

/-- Write a little-endian u32. -/
def writeU32 (d : Disk) (o v : Nat) : Disk :=
  writeU8 (writeU8 (writeU8 (writeU8 d o (v % 256)) (o + 1) (v / 256 % 256))
    (o + 2) (v / 65536 % 256)) (o + 3) (v / 16777216 % 256)

/-- Write a list of bytes starting at offset o. -/
def writeBytes (d : Disk) (o : Nat) : List Nat → Disk
  | [] => d
  | b :: bs => writeBytes (writeU8 d o b) (o + 1) bs

/-- Wrapping u32 subtraction, the release-mode semantics of u32 a - b. -/
def u32sub (a b : Nat) : Nat := (((a : Int) - (b : Int)).emod (2 ^ 32)).toNat

/-! ## BIOS parameter block (bpb.rs) -/

/-- Fields of BiosParameterBlockFAT32 from bpb.rs (scalar fields as Nat,
byte arrays as lists). -/
structure BiosParameterBlockFAT32 where
  fat_size : Nat := 0
  ext_flags : Nat := 0
  fs_ver : Nat := 0
  root_cluster : Nat := 0
  fs_info : Nat := 0
  bk_boot_sec : Nat := 0
  reserved : List Nat := []
  drv_num : Nat := 0
  reserved1 : Nat := 0
  boot_sig : Nat := 0
  vol_id : Nat := 0
  volume_label : List Nat := []
  file_sys_type : List Nat := []
  deriving Repr, DecidableEq

/-- Fields of BiosParameterBlockLegacy from bpb.rs. -/
structure BiosParameterBlockLegacy where
  drive_num : Nat := 0
  reserved : Nat := 0
  boot_sig : Nat := 0
  vol_id : Nat := 0
  volume_label : List Nat := []
  file_sys_type : Nat := 0
  deriving Repr, DecidableEq

/-- The FATType enum from bpb.rs. -/
inductive FATType where
  | fat32 (s : BiosParameterBlockFAT32)
  | fat12 (l : BiosParameterBlockLegacy)
  | fat16 (l : BiosParameterBlockLegacy)
  deriving Repr, DecidableEq

/-- The BiosParameterBlock struct from bpb.rs. -/
structure BiosParameterBlock where
  jmp_boot : List Nat := []
  oem_name : List Nat := []
  bytes_per_sector : Nat := 0
  sectors_per_cluster : Nat := 0
  rsvd_sec_cnt : Nat := 0
  num_fats : Nat := 0
  root_entries_cnt : Nat := 0
  total_sectors_16 : Nat := 0
  media : Nat := 0
  fat_size_16 : Nat := 0
  sectors_per_track : Nat := 0
  number_of_heads : Nat := 0
  hidden_sectors : Nat := 0
  total_sectors_32 : Nat := 0
  fat_type : FATType := FATType.fat32 {}
  sig : List Nat := []
  deriving Repr, DecidableEq

namespace BiosParameterBlock

/-- BiosParameterBlock::is_fat32 from bpb.rs. -/
def is_fat32 (bpb : BiosParameterBlock) : Bool :=
  bpb.total_sectors_16 = 0

/-- Population count with explicit fuel, structurally recursive so that it
evaluates by kernel reduction. -/
def count_ones_go : Nat → Nat → Nat
  | 0, _ => 0
  | fuel + 1, n => if n = 0 then 0 else n % 2 + count_ones_go fuel (n / 2)

/-- Population count, embedding u16 count_ones from the Rust standard
library; fuel n suffices because repeated halving of n reaches 0 within n
steps. -/
def count_ones (n : Nat) : Nat := count_ones_go n n

/-- BiosParameterBlock::validate from bpb.rs, lines 206 to 275.  Rust u32
arithmetic that may underflow is embedded with wrapping subtraction (release
semantics). -/
def validate (bpb : BiosParameterBlock) (bpb32 : BiosParameterBlockFAT32) :
    Except String Unit :=
  if count_ones bpb.bytes_per_sector ≠ 1 then
    Except.error "Invalid bytes per sector(not a power of 2"
  else if bpb.bytes_per_sector < 512 then
    Except.error "Invalid bytes per sector (value < 512)"
  else if bpb.bytes_per_sector > 4096 then
    Except.error "Invalid bytes per sector (value > 4096)"
  else
    let is_fat32 := bpb.is_fat32
    if bpb.rsvd_sec_cnt < 1 then
      Except.error "Invalid rsvd_sec_cnt value in BPB"
    else if bpb.num_fats = 0 then
      Except.error "invalid fats value in BPB"
    else if is_fat32 ∧ bpb.root_entries_cnt ≠ 0 then
      Except.error "Invalid root_entries value in BPB (should be zero for FAT32)"
    else if is_fat32 ∧ bpb.total_sectors_16 ≠ 0 then
      Except.error "Invalid total_sectors_16 value in BPB (should be zero for FAT32)"
    else if (bpb.total_sectors_16 = 0) = (bpb.total_sectors_32 = 0) then
      Except.error "Invalid BPB (total_sectors_16 or total_sectors_32 should be non-zero)"
    else if is_fat32 ∧ bpb32.fat_size = 0 then
      Except.error "Invalid sectors_per_fat_32 value in BPB (should be non-zero for FAT32)"
    else if bpb32.fs_ver ≠ 0 then
      Except.error "Unknown FS version"
    else
      let root_sectors := (bpb.root_entries_cnt * 32 + bpb.bytes_per_sector - 1) /
        bpb.bytes_per_sector
      let fat_sz := if bpb.fat_size_16 ≠ 0 then bpb.fat_size_16 else bpb32.fat_size
      let tot_sec := if bpb.total_sectors_16 ≠ 0 then bpb.total_sectors_16
        else bpb.total_sectors_32
      let first_data_sec := bpb.rsvd_sec_cnt + bpb.num_fats * fat_sz + root_sectors
      let data_sec := u32sub tot_sec (bpb.rsvd_sec_cnt + bpb.num_fats * fat_sz + root_sectors)
      let count_clusters := data_sec / bpb.sectors_per_cluster
      if tot_sec ≤ first_data_sec then
        Except.error "Total sectors lesser than first data sector"
      else if (is_fat32 = true) ≠ (count_clusters ≥ 65525) then
        Except.error "FAT determination using tot_sec_16 and count_cluster differs"
      else
        Except.ok ()

/-- The FAT-variant classification performed at the end of
BiosParameterBlock::populate in bpb.rs, lines 192 to 200. -/
def classify (bpb : BiosParameterBlock) (bpb32 : BiosParameterBlockFAT32) : FATType :=
  let fat_sz := if bpb.fat_size_16 ≠ 0 then bpb.fat_size_16 else bpb32.fat_size
  let tot_sec := if bpb.total_sectors_16 ≠ 0 then bpb.total_sectors_16
    else bpb.total_sectors_32
  let root_sectors := (bpb.root_entries_cnt * 32 + bpb.bytes_per_sector - 1) /
    bpb.bytes_per_sector
  let data_sec := u32sub tot_sec (bpb.rsvd_sec_cnt + bpb.num_fats * fat_sz + root_sectors)
  let count_clusters := data_sec / bpb.sectors_per_cluster
  if count_clusters < 4085 then FATType.fat12 {}
  else if count_clusters < 65525 then FATType.fat16 {}
  else FATType.fat32 bpb32

end BiosParameterBlock

/-! ## FsInfo (filesystem.rs) -/

/-- The in-memory FsInfo struct from filesystem.rs. -/
structure FsInfo where
  lead_sig : Nat
  struc_sig : Nat
  free_count : Nat
  next_free : Nat
  trail_sig : Nat
  dirty : Bool
  offset : Option Nat
  deriving Repr, DecidableEq

namespace FsInfo

def LEAD_SIG : Nat := 0x41615252
def STRUC_SIG : Nat := 0x61417272
def TRAIL_SIG : Nat := 0xAA550000

/-- FsInfo::default from filesystem.rs: unknown free count and a next-free
hint of cluster 2 (RESERVED_CLUSTERS). -/
def default : FsInfo where
  lead_sig := 0x41615252
  struc_sig := 0x61417272
  free_count := 0xFFFFFFFF
  next_free := 2
  trail_sig := 0xAA550000
  dirty := false
  offset := none

/-- FsInfo::is_valid from filesystem.rs. -/
def is_valid (f : FsInfo) : Bool :=
  f.lead_sig = LEAD_SIG ∧ f.struc_sig = STRUC_SIG ∧ f.trail_sig = TRAIL_SIG

/-- FsInfo::populate from filesystem.rs, lines 96 to 123.  The cursor reads
land at the absolute offsets: lead signature at offset, structure signature at
offset + 484, free count at offset + 488, next free at offset + 492 and trail
signature at offset + 508.  Returns an error when the three signatures do not
validate. -/
def populate (disk : Disk) (offset : Nat) : Except String FsInfo :=
  let fsinfo : FsInfo :=
    { lead_sig := readU32 disk offset
      struc_sig := readU32 disk (offset + 484)
      free_count := readU32 disk (offset + 488)
      next_free := readU32 disk (offset + 492)
      trail_sig := readU32 disk (offset + 508)
      dirty := false
      offset := some offset }
  if fsinfo.is_valid then Except.ok fsinfo
  else Except.error "Error Parsing FsInfo"

/-- FsInfo::get_next_free from filesystem.rs. -/
def get_next_free (f : FsInfo) : Option Nat :=
  if f.next_free = 0xFFFFFFFF then none
  else if f.next_free = 0 ∨ f.next_free = 1 then none
  else some f.next_free

/-- FsInfo::update_free_count from filesystem.rs (count as u32). -/
def update_free_count (f : FsInfo) (count : Nat) : FsInfo :=
  { f with free_count := count % 2 ^ 32 }

/-- FsInfo::delta_free_count from filesystem.rs: free_count as i32 plus delta,
cast back to u32 (two-complement wrap). -/
def delta_free_count (f : FsInfo) (delta : Int) : FsInfo :=
  { f with free_count := (((f.free_count : Int) + delta).emod (2 ^ 32)).toNat }

/-- FsInfo::update_next_free from filesystem.rs (next_free as u32). -/
def update_next_free (f : FsInfo) (next_free : Nat) : FsInfo :=
  { f with next_free := next_free % 2 ^ 32 }

end FsInfo

/-! ## The filesystem handle (filesystem.rs)

Cluster values are embedded as plain Nat: the Cluster struct of the source
compares only on cluster_number (its PartialEq implementation), and the
parent_cluster field never influences any behaviour modelled here. -/

/-- The FileSystem struct from filesystem.rs: the disk plus the parsed BPB,
the partition offset, the derived first data sector and the in-memory FsInfo
(the RefCell wrappers become plain fields under explicit state passing). -/
structure FileSystem where
  disk : Disk
  bpb : BiosParameterBlock
  partition_offset : Nat
  first_data_sec : Nat
  fs_info : FsInfo

namespace FileSystem

/-- FileSystem::bytes_per_sec from filesystem.rs. -/
def bytes_per_sec (fs : FileSystem) : Nat := fs.bpb.bytes_per_sector

/-- FileSystem::sectors_per_cluster from filesystem.rs. -/
def sectors_per_cluster (fs : FileSystem) : Nat := fs.bpb.sectors_per_cluster

/-- FileSystem::bytes_per_cluster from filesystem.rs. -/
def bytes_per_cluster (fs : FileSystem) : Nat :=
  fs.bytes_per_sec * fs.sectors_per_cluster

/-- FileSystem::fat_size from filesystem.rs.  The source panics for a legacy
volume whose fat_size_16 is zero; that unreachable branch is embedded as 0. -/
def fat_size (fs : FileSystem) : Nat :=
  if fs.bpb.fat_size_16 ≠ 0 then fs.bpb.fat_size_16
  else match fs.bpb.fat_type with
    | FATType.fat32 x => x.fat_size
    | _ => 0

/-- FileSystem::mirroring_enabled from filesystem.rs: FAT32 mirroring is
enabled when bit 7 of ext_flags is clear. -/
def mirroring_enabled (fs : FileSystem) : Bool :=
  match fs.bpb.fat_type with
  | FATType.fat32 s => s.ext_flags &&& 0x80 = 0
  | _ => false

/-- FileSystem::active_fat from filesystem.rs. -/
def active_fat (fs : FileSystem) : Nat :=
  if fs.mirroring_enabled then 0
  else match fs.bpb.fat_type with
    | FATType.fat32 s => s.ext_flags &&& 0x0F
    | _ => 0

/-- FileSystem::fat_start_sector from filesystem.rs. -/
def fat_start_sector (fs : FileSystem) : Nat :=
  fs.bpb.rsvd_sec_cnt + fs.active_fat * fs.fat_size

/-- FileSystem::max_cluster_number from filesystem.rs (wrapping subtraction is
irrelevant here because every volume modelled satisfies the validate bounds;
Nat subtraction is used as in the well-formed case). -/
def max_cluster_number (fs : FileSystem) : Nat :=
  match fs.bpb.fat_type with
  | FATType.fat32 s =>
    let data_sec := fs.bpb.total_sectors_32 -
      (fs.bpb.rsvd_sec_cnt + fs.bpb.num_fats * s.fat_size)
    data_sec / fs.bpb.sectors_per_cluster + 2 - 1
  | _ =>
    let root_dir_sectors := (fs.bpb.root_entries_cnt * 32 + fs.bytes_per_sec - 1) /
      fs.bytes_per_sec
    let data_sec := fs.bpb.total_sectors_16 -
      (fs.bpb.rsvd_sec_cnt + fs.bpb.num_fats * fs.bpb.fat_size_16 + root_dir_sectors)
    data_sec / fs.bpb.sectors_per_cluster + 2 - 1

/-- FileSystem::cluster_offset from filesystem.rs: byte offset of the data
region of a cluster, 0 for the reserved clusters. -/
def cluster_offset (fs : FileSystem) (cluster : Nat) : Nat :=
  if cluster ≥ 2 then
    ((cluster - 2) * fs.sectors_per_cluster + fs.first_data_sec) * fs.bytes_per_sec
  else 0

/-- FileSystem::get_raw_offset from filesystem.rs. -/
def get_raw_offset (fs : FileSystem) (offset : Nat) : Nat :=
  fs.partition_offset + offset

/-- FileSystem::get_block_offset from filesystem.rs. -/
def get_block_offset (fs : FileSystem) (offset : Nat) : Nat :=
  (fs.partition_offset + offset) % BLOCK_SIZE

end FileSystem

/-- get_block_buffer from filesystem.rs returns a zeroed vector covering every
block that the byte range touches; this is its length. -/
def block_buf_len (byte_offset read_size : Nat) : Nat :=
  (byte_offset % BLOCK_SIZE + read_size + BLOCK_SIZE - 1) / BLOCK_SIZE * BLOCK_SIZE

namespace FileSystem

/-- The loop of FileSystem::write_to from filesystem.rs, lines 337 to 359.
Each iteration reads the block buffer at the block of the current offset,
patches it at the intra-block offset blk0 that the source computes once from
the initial offset, advances the offset, and writes the buffer back at the
block of the advanced offset (the source seeks again after advancing, so a
write whose range reaches a block boundary lands one block late). -/
def write_to_loop (part blk0 bufS : Nat) (buf : List Nat) :
    Nat → Nat → Nat → Disk → Nat × Disk
  | 0, _, start, d => (start, d)
  | n + 1, offset, start, d =>
    let base := (part + offset) / BLOCK_SIZE * BLOCK_SIZE
    let wlen := min (BLOCK_SIZE - blk0) (buf.length - start)
    let patched : Nat → Nat := fun j =>
      if blk0 ≤ j ∧ j < blk0 + wlen then buf.getD (start + (j - blk0)) 0 % 256
      else d (base + j)
    let offset2 := offset + wlen
    let base2 := (part + offset2) / BLOCK_SIZE * BLOCK_SIZE
    let d2 : Disk := fun x =>
      if base2 ≤ x ∧ x < base2 + bufS then patched (x - base2) else d x
    write_to_loop part blk0 bufS buf n offset2 (start + wlen) d2

/-- FileSystem::write_to from filesystem.rs: returns the byte count reported
and the updated state. -/
def write_to (fs : FileSystem) (offset : Nat) (buf : List Nat) : Nat × FileSystem :=
  let num_blocks := (buf.length + BLOCK_SIZE - 1) / BLOCK_SIZE
  let blk0 := fs.get_block_offset offset
  let bufS := block_buf_len (fs.get_raw_offset offset) BLOCK_SIZE
  let r := write_to_loop fs.partition_offset blk0 bufS buf num_blocks offset 0 fs.disk
  (r.1, { fs with disk := r.2 })

/-- The counting loop of FileSystem::read_at from filesystem.rs, lines
285 to 308: each of the ceil(len / BLOCK_SIZE) iterations transfers
min(BLOCK_SIZE - blk0, len - start) bytes, with blk0 computed once from the
initial offset.  Only the count is modelled; no state changes. -/
def read_at_count_loop (cap len : Nat) : Nat → Nat → Nat
  | 0, start => start
  | n + 1, start => read_at_count_loop cap len n (start + min cap (len - start))

/-- The byte count returned by FileSystem::read_at from filesystem.rs. -/
def read_at_count (fs : FileSystem) (offset len : Nat) : Nat :=
  read_at_count_loop (BLOCK_SIZE - fs.get_block_offset offset) len
    ((len + BLOCK_SIZE - 1) / BLOCK_SIZE) 0

/-- FileSystem::zero_cluster from filesystem.rs: write bytes_per_cluster zero
bytes through write_to at the cluster offset. -/
def zero_cluster (fs : FileSystem) (cluster : Nat) : FileSystem :=
  (fs.write_to (fs.cluster_offset cluster) (List.replicate fs.bytes_per_cluster 0)).2

end FileSystem

/-! ## FAT table (table.rs) -/

/-- The FatEntry enum from table.rs.  Cluster payloads are plain cluster
numbers (the Cluster struct compares only on cluster_number). -/
inductive FatEntry where
  | Unused
  | Bad
  | EndOfChain
  | Next (c : Nat)
  deriving Repr, DecidableEq

/-- get_fat_offset from table.rs, lines 19 to 32. -/
def get_fat_offset (fat_type : FATType) (cluster fat_start_sector bytes_per_sec : Nat) :
    Nat :=
  let fat_offset := match fat_type with
    | FATType.fat12 _ => cluster + cluster / 2
    | FATType.fat16 _ => cluster * 2
    | FATType.fat32 _ => cluster * 4
  let fat_sec_number := fat_start_sector + fat_offset / bytes_per_sec
  let fat_ent_offset := fat_offset % bytes_per_sec
  fat_sec_number * bytes_per_sec + fat_ent_offset

/-- get_entry from table.rs: decode the FAT entry of a cluster.  The block
buffer and cursor of the source amount to reading the integer at the absolute
disk offset partition_offset + get_fat_offset. -/
def get_entry (fs : FileSystem) (cluster : Nat) : FatEntry :=
  let offset := get_fat_offset fs.bpb.fat_type cluster fs.fat_start_sector fs.bytes_per_sec
  let abs := fs.get_raw_offset offset
  match fs.bpb.fat_type with
  | FATType.fat12 _ =>
    let entry0 := readU16 fs.disk abs
    let entry := if cluster % 2 = 1 then entry0 >>> 4 else entry0 &&& 0x0fff
    if entry = 0 then FatEntry.Unused
    else if entry = 0x0ff7 then FatEntry.Bad
    else if entry ≥ 0xff8 then FatEntry.EndOfChain
    else FatEntry.Next entry
  | FATType.fat16 _ =>
    let entry := readU16 fs.disk abs
    if entry = 0 then FatEntry.Unused
    else if entry = 0xfff7 then FatEntry.Bad
    else if entry ≥ 0xfff8 then FatEntry.EndOfChain
    else FatEntry.Next entry
  | FATType.fat32 _ =>
    let entry := readU32 fs.disk abs &&& 0x0FFFFFFF
    if 0x0ffffff7 ≤ cluster ∧ cluster ≤ 0x0fffffff then FatEntry.Bad
    else if entry = 0 then FatEntry.Unused
    else if entry = 0x0ffffff7 then FatEntry.Bad
    else if 0x0ffffff8 ≤ entry ∧ entry ≤ 0x0fffffff then FatEntry.EndOfChain
    else FatEntry.Next entry

/-- The raw 12-bit encoding chosen by set_entry for FAT12 in table.rs
(Next truncates through the as u16 cast). -/
def fat12_raw_val : FatEntry → Nat
  | FatEntry.Unused => 0
  | FatEntry.Bad => 0xff7
  | FatEntry.EndOfChain => 0xfff
  | FatEntry.Next c => c % 65536

/-- The raw 16-bit encoding chosen by set_entry for FAT16 in table.rs. -/
def fat16_raw_val : FatEntry → Nat
  | FatEntry.Unused => 0
  | FatEntry.Bad => 0xfff7
  | FatEntry.EndOfChain => 0xffff
  | FatEntry.Next c => c % 65536

/-- The raw 32-bit encoding chosen by set_entry for FAT32 in table.rs. -/
def fat32_raw_val : FatEntry → Nat
  | FatEntry.Unused => 0
  | FatEntry.Bad => 0x0FFFFFF7
  | FatEntry.EndOfChain => 0x0FFFFFFF
  | FatEntry.Next c => c % 2 ^ 32

/-- The FAT32 write loop of set_entry from table.rs, lines 363 to 392: one
pass per FAT copy in 0..bound, each preserving the reserved high four bits of
the previous on-disk value of that copy.  Note that the source adds
i * fat_size (a sector count) to a byte offset. -/
def set_entry32_loop (part fat_offset fat_size raw : Nat) : Nat → Disk → Disk
  | 0, d => d
  | n + 1, d =>
    let i := n
    let rest := set_entry32_loop part fat_offset fat_size raw n d
    let f_offset := fat_offset + i * fat_size
    let abs := part + f_offset
    let old_bits := readU32 rest abs &&& 0xF0000000
    writeU32 rest abs (raw ||| old_bits)

/-- set_entry from table.rs, lines 308 to 397. -/
def set_entry (fs : FileSystem) (cluster : Nat) (fat_entry : FatEntry) : FileSystem :=
  let fat_offset := get_fat_offset fs.bpb.fat_type cluster fs.fat_start_sector
    fs.bytes_per_sec
  match fs.bpb.fat_type with
  | FATType.fat12 _ =>
    let raw_val := fat12_raw_val fat_entry
    let abs := fs.get_raw_offset fat_offset
    let old_val := readU16 fs.disk abs
    let new_val := if cluster % 2 = 1 then
        (old_val &&& 0x000F) ||| (raw_val <<< 4) % 65536
      else (old_val &&& 0xF000) ||| raw_val
    { fs with disk := writeU16 fs.disk abs new_val }
  | FATType.fat16 _ =>
    let raw_val := fat16_raw_val fat_entry
    let abs := fs.get_raw_offset fat_offset
    { fs with disk := writeU16 fs.disk abs raw_val }
  | FATType.fat32 _ =>
    let fat_size := fs.fat_size
    let bound := if fs.mirroring_enabled then 1 else fs.bpb.num_fats
    let raw := fat32_raw_val fat_entry
    let d := set_entry32_loop fs.partition_offset fat_offset fat_size raw bound fs.disk
    { fs with disk := d }

/-- The FAT12 branch of get_free_cluster from table.rs, lines 209 to 245: a
streaming scan over the packed 12-bit table.  pos is the absolute disk offset
of the next unread cursor byte.  The source loop terminates only when it
reaches a free entry, the end cluster or the max cluster; fuel covers every
such run, and exhaustion (unreachable on the runs the source completes) is an
error. -/
def get_free_cluster12_loop (d : Disk) (endc maxc : Nat) :
    Nat → Nat → Nat → Nat → Except String Nat
  | 0, _, _, _ => Except.error "fuel exhausted"
  | fuel + 1, cluster, pos, packed =>
    let val := if cluster % 2 = 1 then packed >>> 4 else packed &&& 0x0fff
    if val = 0 then Except.ok cluster
    else
      let cluster2 := cluster + 1
      if cluster2 = endc ∨ cluster2 = maxc then
        Except.error "Space Exhausted on Disk"
      else if cluster2 % 2 = 0 then
        get_free_cluster12_loop d endc maxc fuel cluster2 (pos + 2) (readU16 d pos)
      else
        get_free_cluster12_loop d endc maxc fuel cluster2 (pos + 1)
          ((packed >>> 8) ||| (readU8 d pos <<< 8))

/-- The FAT16 branch of get_free_cluster from table.rs, lines 247 to 269,
with structural fuel (the dispatcher passes more fuel than the while loop can
consume, so the fuel-exhaustion branch is unreachable there). -/
def get_free_cluster16_loop (fs : FileSystem) (endc maxc : Nat) :
    Nat → Nat → Except String Nat
  | 0, _ => Except.error "fuel exhausted"
  | fuel + 1, cluster =>
    if cluster < endc ∧ cluster < maxc then
      let offset := get_fat_offset fs.bpb.fat_type cluster fs.fat_start_sector
        fs.bytes_per_sec
      let packed_val := readU16 fs.disk (fs.get_raw_offset offset)
      if packed_val = 0 then Except.ok cluster
      else get_free_cluster16_loop fs endc maxc fuel (cluster + 1)
    else Except.error "Space Exhausted on Disk"

/-- The FAT32 branch of get_free_cluster from table.rs, lines 271 to 304,
with the same fuel discipline as the FAT16 branch. -/
def get_free_cluster32_loop (fs : FileSystem) (endc maxc : Nat) :
    Nat → Nat → Except String Nat
  | 0, _ => Except.error "fuel exhausted"
  | fuel + 1, cluster =>
    if cluster < endc ∧ cluster < maxc then
      let offset := get_fat_offset fs.bpb.fat_type cluster fs.fat_start_sector
        fs.bytes_per_sec
      let val := readU32 fs.disk (fs.get_raw_offset offset) &&& 0x0FFFFFFF
      if val = 0 then Except.ok cluster
      else get_free_cluster32_loop fs endc maxc fuel (cluster + 1)
    else Except.error "Space Exhausted on Disk"

/-- get_free_cluster from table.rs, lines 187 to 306. -/
def get_free_cluster (fs : FileSystem) (start_cluster end_cluster : Nat) :
    Except String Nat :=
  let max_cluster := fs.max_cluster_number
  match fs.bpb.fat_type with
  | FATType.fat12 _ =>
    let offset := get_fat_offset fs.bpb.fat_type start_cluster fs.fat_start_sector
      fs.bytes_per_sec
    let abs := fs.get_raw_offset offset
    get_free_cluster12_loop fs.disk end_cluster max_cluster
      (end_cluster + max_cluster + 2) start_cluster (abs + 2) (readU16 fs.disk abs)
  | FATType.fat16 _ =>
    get_free_cluster16_loop fs end_cluster max_cluster
      (end_cluster + max_cluster + 2) start_cluster
  | FATType.fat32 _ =>
    get_free_cluster32_loop fs end_cluster max_cluster
      (end_cluster + max_cluster + 2) start_cluster

/-- The start-cluster selection of allocate_cluster from table.rs, lines
488 to 502: the FSInfo next-free hint on FAT32 when it is a usable hint below
the max cluster, otherwise cluster 2 (RESERVED_CLUSTERS). -/
def alloc_start_cluster (fs : FileSystem) : Nat :=
  match fs.bpb.fat_type with
  | FATType.fat32 _ =>
    let next_free := match fs.fs_info.get_next_free with
      | some x => x
      | none => 0xFFFFFFFF
    if next_free < fs.max_cluster_number then next_free else 2
  | _ => 2

/-- The scan of allocate_cluster from table.rs, lines 504 to 508: try
get_free_cluster from the selected start, and on failure with a start above
cluster 2 retry once from cluster 2. -/
def alloc_find (fs : FileSystem) : Except String Nat :=
  let start := alloc_start_cluster fs
  match get_free_cluster fs start fs.max_cluster_number with
  | Except.ok c => Except.ok c
  | Except.error e =>
    if start > 2 then get_free_cluster fs 2 fs.max_cluster_number
    else Except.error e

/-- allocate_cluster from table.rs, lines 486 to 518. -/
def allocate_cluster (fs : FileSystem) (prev_cluster : Option Nat) :
    Except String (Nat × FileSystem) := do
  let free_cluster ← alloc_find fs
  let fs1 := set_entry fs free_cluster FatEntry.EndOfChain
  let fs2 := { fs1 with
    fs_info := (fs1.fs_info.delta_free_count (-1)).update_next_free (free_cluster + 1) }
  let fs3 := match prev_cluster with
    | some prev_clus => set_entry fs2 prev_clus (FatEntry.Next free_cluster)
    | none => fs2
  let fs4 := fs3.zero_cluster free_cluster
  return (free_cluster, fs4)

/-- deallocate_cluster from table.rs, lines 520 to 533 (the secure feature
that zeroes the freed cluster is not enabled). -/
def deallocate_cluster (fs : FileSystem) (cluster : Nat) : Except String FileSystem :=
  let entry := get_entry fs cluster
  if entry ≠ FatEntry.Bad then
    let fs1 := set_entry fs cluster FatEntry.Unused
    Except.ok { fs1 with fs_info := fs1.fs_info.delta_free_count 1 }
  else Except.error "Bad clusters cannot be freed"

namespace FileSystem

/-- The ClusterIter enumeration behind FileSystem::clusters from
filesystem.rs: the start cluster followed by successors while get_entry yields
Next.  The source iterator terminates only on chains without cycles; an
acyclic chain holds at most max_cluster_number + 1 clusters, so the fuel used
by clusters is exact on every run the source completes. -/
def clusters_loop (fs : FileSystem) : Nat → Option Nat → List Nat
  | 0, _ => []
  | _, none => []
  | fuel + 1, some c =>
    c :: clusters_loop fs fuel
      (match get_entry fs c with
        | FatEntry.Next d => some d
        | _ => none)

/-- FileSystem::clusters from filesystem.rs. -/
def clusters (fs : FileSystem) (start_cluster : Nat) : List Nat :=
  clusters_loop fs (fs.max_cluster_number + 2) (some start_cluster)

/-- FileSystem::get_cluster_relative from filesystem.rs: element n of the
cluster iterator. -/
def get_cluster_relative (fs : FileSystem) (start_cluster : Nat) : Nat → Option Nat
  | 0 => some start_cluster
  | n + 1 =>
    match get_entry fs start_cluster with
    | FatEntry.Next c => fs.get_cluster_relative c n
    | _ => none

/-- The walk behind FileSystem::get_last_cluster from filesystem.rs, with the
same fuel rationale as clusters_loop. -/
def get_last_cluster_loop (fs : FileSystem) : Nat → Nat → Option Nat
  | 0, _ => none
  | fuel + 1, c =>
    match get_entry fs c with
    | FatEntry.Next d => fs.get_last_cluster_loop fuel d
    | _ => some c

/-- FileSystem::get_last_cluster from filesystem.rs. -/
def get_last_cluster (fs : FileSystem) (start_cluster : Nat) : Option Nat :=
  fs.get_last_cluster_loop (fs.max_cluster_number + 2) start_cluster

end FileSystem

/-- deallocate_cluster_chain from table.rs, lines 535 to 541: collect the
chain, then deallocate each cluster in order. -/
def deallocate_cluster_list : FileSystem → List Nat → Except String FileSystem
  | fs, [] => Except.ok fs
  | fs, c :: cs => do
    let fs1 ← deallocate_cluster fs c
    deallocate_cluster_list fs1 cs

/-- deallocate_cluster_chain from table.rs. -/
def deallocate_cluster_chain (fs : FileSystem) (cluster : Nat) :
    Except String FileSystem :=
  deallocate_cluster_list fs (fs.clusters cluster)

/-! ## Directory entries and the file object layer (dir_entry.rs) -/

/-- DIR_ENTRY_LEN from dir_entry.rs. -/
def DIR_ENTRY_LEN : Nat := 32

/-- MAX_FILE_SIZE from dir_entry.rs: the largest u32. -/
def MAX_FILE_SIZE : Nat := 0xffffffff

/-- The ShortDirEntry struct from dir_entry.rs (all scalar fields as Nat, the
11-byte name as a list). -/
structure ShortDirEntry where
  dir_name : List Nat := List.replicate 11 0
  file_attrs : Nat := 0
  nt_res : Nat := 0
  crt_time_tenth : Nat := 0
  crt_time : Nat := 0
  crt_date : Nat := 0
  lst_acc_date : Nat := 0
  fst_clst_hi : Nat := 0
  wrt_time : Nat := 0
  wrt_date : Nat := 0
  fst_clus_lo : Nat := 0
  file_size : Nat := 0
  deriving Repr, DecidableEq

namespace ShortDirEntry

/-- ShortDirEntry::compute_checksum from dir_entry.rs: the FAT rotate-right
checksum over the 11 name bytes, with wrapping u8 arithmetic. -/
def compute_checksum (e : ShortDirEntry) : Nat :=
  e.dir_name.foldl (fun sum b => (sum % 2 * 128 + sum / 2 + b) % 256) 0

/-- ShortDirEntry::set_first_cluster from dir_entry.rs. -/
def set_first_cluster (e : ShortDirEntry) (cluster : Nat) : ShortDirEntry :=
  { e with fst_clus_lo := cluster &&& 0x0000ffff
           fst_clst_hi := (cluster &&& 0xffff0000) >>> 16 }

/-- ShortDirEntry::flush from dir_entry.rs: the 32 bytes of the entry written
through direct disk writes at partition_offset + offset (fs.seek_to adds the
partition offset). -/
def flush (e : ShortDirEntry) (offset : Nat) (fs : FileSystem) : FileSystem :=
  let abs := fs.partition_offset + offset
  let d0 := writeBytes fs.disk abs e.dir_name
  let d1 := writeU8 d0 (abs + 11) e.file_attrs
  let d2 := writeU8 d1 (abs + 12) e.nt_res
  let d3 := writeU8 d2 (abs + 13) e.crt_time_tenth
  let d4 := writeU16 d3 (abs + 14) e.crt_time
  let d5 := writeU16 d4 (abs + 16) e.crt_date
  let d6 := writeU16 d5 (abs + 18) e.lst_acc_date
  let d7 := writeU16 d6 (abs + 20) e.fst_clst_hi
  let d8 := writeU16 d7 (abs + 22) e.wrt_time
  let d9 := writeU16 d8 (abs + 24) e.wrt_date
  let d10 := writeU16 d9 (abs + 26) e.fst_clus_lo
  let d11 := writeU32 d10 (abs + 28) e.file_size
  { fs with disk := d11 }

end ShortDirEntry

/-- The File struct from dir_entry.rs: first cluster, path strings, the cached
short directory entry and the (cluster, offset) range of its directory slots. -/
structure File where
  first_cluster : Nat := 0
  file_path : String := ""
  fname : String := ""
  short_dir_entry : ShortDirEntry := {}
  loc : (Nat × Nat) × (Nat × Nat) := ((0, 0), (0, 0))

namespace File

/-- File::size from dir_entry.rs. -/
def size (f : File) : Nat := f.short_dir_entry.file_size

/-- File::set_size from dir_entry.rs; the callers cast through u32, so the
stored value is reduced modulo 2 to the 32 at every call site. -/
def set_size (f : File) (sz : Nat) : File :=
  { f with short_dir_entry := { f.short_dir_entry with file_size := sz } }

/-- The loop of File::read from dir_entry.rs, lines 571 to 592, tracking only
the byte count.  Every iteration of the source loop that does not break
transfers at least one byte, so the fuel passed by File.read (read_size + 1)
is never exhausted on runs the source completes. -/
def read_loop (fs : FileSystem) (bufLen readSize : Nat) :
    Nat → Nat → Nat → Nat → Nat
  | 0, _, _, read => read
  | fuel + 1, current_cluster, cluster_offset, read =>
    let step : Nat → Nat → Nat := fun cur clOff =>
      let end_len := min (min (fs.bytes_per_cluster - clOff) (bufLen - read))
        (readSize - read)
      let r := fs.read_at_count (fs.cluster_offset cur + clOff) end_len
      if read + r = readSize then read + r
      else read_loop fs bufLen readSize fuel cur (clOff + r) (read + r)
    if cluster_offset ≥ fs.bytes_per_cluster then
      match get_entry fs current_cluster with
      | FatEntry.Next c => step c (cluster_offset % fs.bytes_per_cluster)
      | _ => read
    else step current_cluster cluster_offset

/-- File::read from dir_entry.rs, lines 553 to 595: the returned byte count. -/
def read (f : File) (fs : FileSystem) (bufLen offset : Nat) : Nat :=
  if offset ≥ f.size then 0
  else
    let start_cluster_number := offset / fs.bytes_per_cluster
    match fs.get_cluster_relative f.first_cluster start_cluster_number with
    | none => 0
    | some current_cluster =>
      let bytes_remaining_file := f.size - offset
      let read_size := min bufLen bytes_remaining_file
      read_loop fs bufLen read_size (read_size + 1) current_cluster
        (offset % fs.bytes_per_cluster) 0

/-- File::zero_range from dir_entry.rs (the method ignores self): write
zeroes over an absolute byte range through write_to. -/
def zero_range (fs : FileSystem) (range_start range_end : Nat) : FileSystem :=
  if range_end < range_start then fs
  else (fs.write_to range_start (List.replicate (range_end - range_start + 1) 0)).2

/-- The cluster-allocation loop inside File::ensure_len from dir_entry.rs,
lines 668 to 672. -/
def ensure_len_alloc : FileSystem → Nat → Nat → Except String FileSystem
  | fs, _, 0 => Except.ok fs
  | fs, current, n + 1 => do
    let r ← allocate_cluster fs (some current)
    ensure_len_alloc r.2 r.1 n

/-- File::ensure_len from dir_entry.rs, lines 643 to 699.  The two unwrap
calls of the source (which panic when the relative cluster is missing) are
embedded as errors. -/
def ensure_len (f : File) (fs : FileSystem) (offset len : Nat) :
    Except String (File × FileSystem) :=
  if offset + len ≤ f.size then Except.ok (f, fs)
  else do
    let r1 ←
      if f.size = 0 then do
        let a ← allocate_cluster fs none
        let f' := { f with first_cluster := a.1
                           short_dir_entry := f.short_dir_entry.set_first_cluster a.1 }
        Except.ok (f', a.2)
      else Except.ok (f, fs)
    let f1 := r1.1
    let fs1 := r1.2
    let cluster_offset := f1.size % fs1.bytes_per_cluster
    let bytes_remaining_cluster := fs1.bytes_per_cluster - cluster_offset
    let extra_bytes := min (offset + len - f1.size) (MAX_FILE_SIZE - f1.size)
    let fs2 ←
      if bytes_remaining_cluster < extra_bytes then
        let clusters_req := (extra_bytes - bytes_remaining_cluster +
          fs1.bytes_per_cluster - 1) / fs1.bytes_per_cluster
        match fs1.get_last_cluster f1.first_cluster with
        | none => Except.error "Last Cluster not found"
        | some last_cluster => ensure_len_alloc fs1 last_cluster clusters_req
      else Except.ok fs1
    let fs3 ←
      if offset > f1.size then
        let cluster_start := f1.size / fs2.bytes_per_cluster
        match fs2.get_cluster_relative f1.first_cluster cluster_start with
        | none => Except.error "panic: relative cluster not found"
        | some s_cluster =>
          let start_offset := fs2.cluster_offset s_cluster +
            f1.size % fs2.bytes_per_cluster
          let b_remaining := fs2.bytes_per_cluster - f1.size % fs2.bytes_per_cluster
          let offset_start := offset / fs2.bytes_per_cluster
          match fs2.get_cluster_relative f1.first_cluster offset_start with
          | none => Except.error "panic: relative cluster not found"
          | some offset_cluster =>
            if s_cluster ≠ offset_cluster then
              Except.ok (zero_range fs2 start_offset (start_offset + b_remaining - 1))
            else
              Except.ok (zero_range fs2 start_offset
                (start_offset + offset - f1.size - 1))
      else Except.ok fs2
    let new_size := f1.size + extra_bytes
    let f2 := f1.set_size (new_size % 2 ^ 32)
    let short_entry_offset := fs3.cluster_offset f2.loc.2.1 + f2.loc.2.2
    let fs4 := f2.short_dir_entry.flush short_entry_offset fs3
    Except.ok (f2, fs4)

/-- The loop of File::write from dir_entry.rs, lines 613 to 637: byte count
plus the evolving state.  The fuel rationale matches read_loop. -/
def write_loop (buf : List Nat) :
    Nat → FileSystem → Nat → Nat → Nat → Nat × FileSystem
  | 0, fs, _, _, written => (written, fs)
  | fuel + 1, fs, current_cluster, cluster_offset, written =>
    let step : Nat → Nat → Nat × FileSystem := fun cur clOff =>
      let end_len := min (fs.bytes_per_cluster - clOff) (buf.length - written)
      let wr := fs.write_to (fs.cluster_offset cur + clOff)
        ((buf.drop written).take end_len)
      if written + wr.1 = buf.length then (written + wr.1, wr.2)
      else write_loop buf fuel wr.2 cur (clOff + wr.1) (written + wr.1)
    if cluster_offset ≥ fs.bytes_per_cluster then
      match get_entry fs current_cluster with
      | FatEntry.Next c => step c (cluster_offset % fs.bytes_per_cluster)
      | _ => (written, fs)
    else step current_cluster cluster_offset

/-- File::write from dir_entry.rs, lines 597 to 641: ensure the length, then
walk the chain writing cluster by cluster; returns the count, the mutated file
object and the state. -/
def write (f : File) (fs : FileSystem) (buf : List Nat) (offset : Nat) :
    Except String (Nat × File × FileSystem) := do
  let r1 ← f.ensure_len fs offset buf.length
  let f1 := r1.1
  let fs1 := r1.2
  let start_cluster_number := offset / fs1.bytes_per_cluster
  match fs1.get_cluster_relative f1.first_cluster start_cluster_number with
  | none => Except.ok (0, f1, fs1)
  | some current_cluster =>
    let r := write_loop buf (buf.length + 1) fs1 current_cluster
      (offset % fs1.bytes_per_cluster) 0
    Except.ok (r.1, f1, r.2)

/-- File::truncate from dir_entry.rs, lines 716 to 734. -/
def truncate (f : File) (fs : FileSystem) (new_size : Nat) :
    Except String (File × FileSystem) :=
  if new_size ≥ f.size then Except.ok (f, fs)
  else do
    let new_last_cluster := new_size / fs.bytes_per_cluster
    let fs1 ←
      match fs.get_cluster_relative f.first_cluster (new_last_cluster + 1) with
      | some c => deallocate_cluster_chain fs c
      | none => Except.ok fs
    let f1 := f.set_size (new_size % 2 ^ 32)
    let short_entry_offset := fs1.cluster_offset f1.loc.2.1 + f1.loc.2.2
    let fs2 := f1.short_dir_entry.flush short_entry_offset fs1
    Except.ok (f1, fs2)

end File

/-! ## Short-name generation (dir_entry.rs, ShortNameGen)

Names are embedded as lists of Unicode scalar values; the 11-byte short-name
buffer as a list of bytes. -/

/-- Overwrite dest starting at index i with the given bytes (out-of-range
writes are dropped, as List.set does). -/
def list_copy_to : List Nat → Nat → List Nat → List Nat
  | dest, _, [] => dest
  | dest, i, b :: bs => list_copy_to (dest.set i b) (i + 1) bs

/-- Vec::resize with a fill value. -/
def list_resize (l : List Nat) (n : Nat) (v : Nat) : List Nat :=
  if n ≤ l.length then l.take n else l ++ List.replicate (n - l.length) v

/-- String trim, restricted to the space character (the concrete names used
in this development carry no other whitespace). -/
def str_trim (s : List Nat) : List Nat :=
  ((s.dropWhile (· = 32)).reverse.dropWhile (· = 32)).reverse

/-- The character class accepted without substitution by
ShortNameGen::copy_part in dir_entry.rs. -/
def short_name_valid_char (c : Nat) : Bool :=
  (97 ≤ c ∧ c ≤ 122) ∨ (65 ≤ c ∧ c ≤ 90) ∨ (48 ≤ c ∧ c ≤ 57) ∨
    c ∈ [36, 37, 39, 45, 95, 64, 126, 96, 33, 40, 41, 123, 125, 94, 35, 38]

/-- char::to_ascii_uppercase. -/
def ascii_uppercase (c : Nat) : Nat :=
  if 97 ≤ c ∧ c ≤ 122 then c - 32 else c

/-- The loop of ShortNameGen::copy_part from dir_entry.rs, lines 1548 to 1572,
over (dest, dest_len, lossy) state.  The source never increments dest_len and
writes the uppercased original character (not the substituted one); both are
reproduced here. -/
def copy_part_go (dest : List Nat) (dest_len : Nat) (lossy : Bool) :
    List Nat → List Nat × Nat × Bool × Bool
  | [] => (dest, dest_len, true, lossy)
  | c :: cs =>
    if dest_len = dest.length then (dest, dest_len, false, lossy)
    else if c = 32 ∨ c = 46 then copy_part_go dest dest_len true cs
    else
      let cp := if short_name_valid_char c then c else 95
      let lossy2 := lossy ∨ c ≠ cp
      copy_part_go (dest.set dest_len (ascii_uppercase c % 256)) dest_len lossy2 cs

/-- ShortNameGen::copy_part from dir_entry.rs: returns the written region, the
reported length, the fits flag and the lossy flag. -/
def copy_part (dest src : List Nat) : List Nat × Nat × Bool × Bool :=
  copy_part_go dest 0 false src

/-- ShortNameGen::checksum from dir_entry.rs: Fletcher-16 over the characters
cast through u16. -/
def fletcher16 (name : List Nat) : Nat :=
  let r := name.foldl
    (fun (p : Nat × Nat) c =>
      let s1 := (p.1 + c % 65536) % 255
      (s1, (p.2 + s1) % 255))
    (0, 0)
  (r.2 <<< 8) ||| r.1

/-- Index of the last dot in a name (str::rfind). -/
def rfind_dot (l : List Nat) : Option Nat :=
  (l.reverse.findIdx? (· = 46)).map (fun i => l.length - 1 - i)

/-- The ShortNameGen struct from dir_entry.rs. -/
structure ShortNameGen where
  name : List Nat := List.replicate 11 32
  is_lossy : Bool := false
  basename_len : Nat := 0
  checksum_bitmask : Nat := 0
  checksum : Nat := 0
  suffix_bitmask : Nat := 0
  name_fits : Bool := false
  exact_match : Bool := false
  is_dot : Bool := false
  is_dotdot : Bool := false
  deriving Repr, DecidableEq

namespace ShortNameGen

/-- ShortNameGen::new from dir_entry.rs, lines 1511 to 1546.  Notable source
behaviour kept intact: the struct literal ends with Default::default, so the
Fletcher checksum computed from the name is discarded and the stored checksum
state starts at 0. -/
def new (name0 : List Nat) : ShortNameGen :=
  let name := str_trim name0
  let sn0 := List.replicate 11 32
  let sn1 := if name = [46] then sn0.set 0 46 else sn0
  let sn2 := if name = [46, 46] then (sn1.set 0 46).set 1 46 else sn1
  let r : List Nat × Nat × Bool × Bool × Bool :=
    match rfind_dot name with
    | some idx =>
      let r1 := copy_part (sn2.take 8) (name.take idx)
      let r2 := copy_part ((sn2.drop 8).take 3) (name.drop (idx + 1))
      (r1.1 ++ r2.1, r1.2.1, r1.2.2.1 ∧ r2.2.2.1, r1.2.2.2 ∨ r2.2.2.2,
        name = [46] ∨ name = [46, 46])
    | none =>
      let r1 := copy_part (sn2.take 8) name
      (r1.1 ++ sn2.drop 8, r1.2.1, r1.2.2.1, r1.2.2.2, false)
  { name := r.1
    is_lossy := r.2.2.2.1
    is_dot := name = [46]
    is_dotdot := name = [46, 46]
    basename_len := r.2.1
    name_fits := r.2.2.1 }

/-- to_digit(10) on a byte viewed as a char. -/
def byte_to_digit (c : Nat) : Option Nat :=
  if 48 ≤ c ∧ c ≤ 57 then some (c - 48) else none

/-- One hex digit of a nibble, uppercased, as in
ShortNameGen::u16_to_u8_array. -/
def hex_digit_char (d : Nat) : Nat :=
  if d < 10 then 48 + d else 55 + d

/-- ShortNameGen::u16_to_u8_array from dir_entry.rs. -/
def u16_to_u8_array (x : Nat) : List Nat :=
  [hex_digit_char (x / 4096 % 16), hex_digit_char (x / 256 % 16),
   hex_digit_char (x / 16 % 16), hex_digit_char (x % 16)]

/-- Value of one hex digit byte, accepting both cases (u16::from_str_radix). -/
def hex_byte_val (c : Nat) : Option Nat :=
  if 48 ≤ c ∧ c ≤ 57 then some (c - 48)
  else if 65 ≤ c ∧ c ≤ 70 then some (c - 55)
  else if 97 ≤ c ∧ c ≤ 102 then some (c - 87)
  else none

/-- Parse four hex digit bytes (the checksum field inside an existing short
name), as u16::from_str_radix does on a 4-byte slice. -/
def parse_hex4 : List Nat → Option Nat
  | [a, b, c, d] => do
    let va ← hex_byte_val a
    let vb ← hex_byte_val b
    let vc ← hex_byte_val c
    let vd ← hex_byte_val d
    pure (va * 4096 + vb * 256 + vc * 16 + vd)
  | _ => none

/-- ShortNameGen::add_name from dir_entry.rs, lines 1587 to 1621. -/
def add_name (g : ShortNameGen) (name : List Nat) : ShortNameGen :=
  let g1 := if name = g.name then { g with exact_match := true } else g
  let prefix_len := min g1.basename_len 6
  let num_suffix := if name.getD prefix_len 0 = 126 then
      byte_to_digit (name.getD (prefix_len + 1) 0)
    else none
  let ext_matches := name.drop 8 = g1.name.drop 8
  let g2 := if name.take prefix_len = g1.name.take prefix_len ∧ num_suffix.isSome ∧
      ext_matches then
      { g1 with suffix_bitmask := g1.suffix_bitmask ||| (1 <<< num_suffix.get!) }
    else g1
  let prefix_len2 := min g2.basename_len 2
  let num_suffix2 := if name.getD (prefix_len2 + 4) 0 = 126 then
      byte_to_digit (name.getD (prefix_len2 + 4 + 1) 0)
    else none
  if name.take prefix_len2 = g2.name.take prefix_len2 ∧ num_suffix2.isSome ∧
      ext_matches then
    if parse_hex4 ((name.drop prefix_len2).take 4) = some g2.checksum then
      { g2 with checksum_bitmask := g2.checksum_bitmask ||| (1 <<< num_suffix2.get!) }
    else g2
  else g2

/-- ShortNameGen::build_prefixed_name from dir_entry.rs, lines 1657 to 1673. -/
def build_prefixed_name (g : ShortNameGen) (num : Nat) (with_chksum : Bool) :
    List Nat :=
  let buf := List.replicate 11 32
  let p : Nat × List Nat :=
    if with_chksum then
      let plen := min g.basename_len 2
      (plen + 4, list_copy_to (list_copy_to buf 0 (g.name.take plen)) plen
        (u16_to_u8_array g.checksum))
    else
      let plen := min g.basename_len 6
      (plen, list_copy_to buf 0 (g.name.take plen))
  let buf2 := (p.2.set p.1 126).set (p.1 + 1) (48 + num)
  list_copy_to buf2 8 (g.name.drop 8)

/-- ShortNameGen::generate from dir_entry.rs, lines 1623 to 1647: the
long-prefix tilde loop runs over 1..5 (numbers 1 to 4) and the checksum form
over 1..10 (numbers 1 to 9). -/
def generate (g : ShortNameGen) : Except String (List Nat) :=
  if g.is_dot ∨ g.is_dotdot then Except.ok g.name
  else if ¬g.is_lossy ∧ g.name_fits ∧ ¬g.exact_match then Except.ok g.name
  else match (List.range' 1 4).find? (fun i => g.suffix_bitmask &&& (1 <<< i) = 0) with
  | some i => Except.ok (g.build_prefixed_name i false)
  | none =>
    match (List.range' 1 9).find? (fun i => g.checksum_bitmask &&& (1 <<< i) = 0) with
    | some i => Except.ok (g.build_prefixed_name i true)
    | none => Except.error "short name already exists"

/-- ShortNameGen::next_iteration from dir_entry.rs (wrapping u16 increment of
the checksum state, cleared bitmasks). -/
def next_iteration (g : ShortNameGen) : ShortNameGen :=
  { g with checksum := (g.checksum + 1) % 65536
           suffix_bitmask := 0
           checksum_bitmask := 0 }

end ShortNameGen

/-! ## Long file name assembly (dir_entry.rs, LongNameGen and
construct_dentry) -/

/-- LFN_PART_LEN from dir_entry.rs. -/
def LFN_PART_LEN : Nat := 13

/-- The LongDirEntry struct from dir_entry.rs (UTF-16 code-unit blocks as
lists). -/
structure LongDirEntry where
  ord : Nat := 0
  name1 : List Nat := List.replicate 5 0
  file_attrs : Nat := 0x0F
  dirent_type : Nat := 0
  chksum : Nat := 0
  name2 : List Nat := List.replicate 6 0
  first_clus_low : Nat := 0
  name3 : List Nat := List.replicate 2 0
  deriving Repr, DecidableEq

namespace LongDirEntry

/-- LongDirEntry::is_last from dir_entry.rs. -/
def is_last (l : LongDirEntry) : Bool := l.ord &&& 0x40 > 0

/-- LongDirEntry::order from dir_entry.rs. -/
def order (l : LongDirEntry) : Nat := l.ord

/-- The 13 code units of the record in order (copy_name_to_slice). -/
def name_units (l : LongDirEntry) : List Nat := l.name1 ++ l.name2 ++ l.name3

end LongDirEntry

/-- The LongNameGen struct from dir_entry.rs. -/
structure LongNameGen where
  name : List Nat := []
  chksum : Nat := 0
  index : Nat := 0
  deriving Repr, DecidableEq

namespace LongNameGen

/-- LongNameGen::process from dir_entry.rs, lines 1411 to 1432. -/
def process (g : LongNameGen) (lfn : LongDirEntry) : Except String LongNameGen :=
  let is_last := lfn.is_last
  let index := lfn.order &&& 0x1f
  if index = 0 then Except.error "Orphaned Entries"
  else
    let r : Except String LongNameGen :=
      if is_last then
        Except.ok { g with index := index
                           chksum := lfn.chksum
                           name := list_resize g.name (index * LFN_PART_LEN) 0 }
      else if g.index = 0 ∨ index ≠ g.index - 1 ∨ g.chksum ≠ lfn.chksum then
        Except.error "Orphaned Entries"
      else Except.ok { g with index := g.index - 1 }
    match r with
    | Except.error e => Except.error e
    | Except.ok g1 =>
      let pos := (index - 1) * LFN_PART_LEN
      Except.ok { g1 with name := list_copy_to g1.name pos lfn.name_units }

/-- LongNameGen::validate_checksum from dir_entry.rs. -/
def validate_checksum (g : LongNameGen) (short_entry : ShortDirEntry) :
    Except String Unit :=
  if g.chksum ≠ short_entry.compute_checksum then
    Except.error "Invalid Checksum"
  else Except.ok ()

/-- LongNameGen::to_string from dir_entry.rs, kept at the level of UTF-16
code units: the assembled buffer truncated at the first zero unit. -/
def name_out (g : LongNameGen) : List Nat :=
  g.name.takeWhile (· ≠ 0)

end LongNameGen

/-- The DirEntryRaw enum from dir_entry.rs. -/
inductive DirEntryRaw where
  | Short (s : ShortDirEntry)
  | Long (l : LongDirEntry)
  | Free
  | FreeRest
  deriving Repr, DecidableEq

namespace DirEntryRaw

/-- DirEntryRaw::is_last from dir_entry.rs. -/
def is_last : DirEntryRaw → Bool
  | Short _ => true
  | Long l => l.is_last
  | _ => false

/-- DirEntryRaw::is_short from dir_entry.rs. -/
def is_short : DirEntryRaw → Bool
  | Short _ => true
  | _ => false

end DirEntryRaw

/-- The record walk inside construct_dentry from dir_entry.rs, lines
1174 to 1184: every record before the terminating short entry must be a long
record and is fed to LongNameGen::process. -/
def construct_fold : LongNameGen → List DirEntryRaw → Except String LongNameGen
  | g, [] => Except.ok g
  | g, DirEntryRaw.Long l :: rest => do
    let g1 ← g.process l
    construct_fold g1 rest
  | _, _ :: _ => Except.error "Orphaned Entries"

/-- construct_dentry from dir_entry.rs, lines 1159 to 1191, kept at the level
of the emitted short entry and assembled long-name code units (the dir_path
and location bookkeeping of to_dir_entry_lfn carry no information relevant
here). -/
def construct_dentry (lfn_entries : List DirEntryRaw) :
    Except String (ShortDirEntry × List Nat) :=
  if lfn_entries.length = 0 then Except.error "Empty lfn entries"
  else if ¬((lfn_entries.headD DirEntryRaw.Free).is_last) ∨
      ¬((lfn_entries.getLastD DirEntryRaw.Free).is_short) then
    Except.error "Orphaned Entries"
  else
    match lfn_entries.getLastD DirEntryRaw.Free with
    | DirEntryRaw.Short short_entry => do
      let g ← construct_fold {} lfn_entries.dropLast
      let _ ← g.validate_checksum short_entry
      Except.ok (short_entry, g.name_out)
    | _ => Except.error "Orphaned Entries"

/-- The FSInfo selection of FileSystem::from_offset from filesystem.rs, lines
228 to 234: a FAT32 volume populates FSInfo from disk and propagates any
parse failure with the question-mark operator; other variants take the
defaults. -/
def from_offset_fs_info (partition_offset : Nat) (bpb : BiosParameterBlock)
    (disk : Disk) : Except String FsInfo :=
  match bpb.fat_type with
  | FATType.fat32 s =>
    FsInfo.populate disk (partition_offset + s.fs_info * bpb.bytes_per_sector)
  | _ => Except.ok FsInfo.default

/-! ## Claim C5 -/

/-- A FAT12 boot sector satisfying every validate rule except that the bytes
parsed at the BPB_FSVer offset are nonzero: 512-byte sectors, 1 sector per
cluster, 1 reserved sector, 1 FAT of 1 sector, 16 root entries, 100 total
sectors (97 data clusters, FAT12 class). -/
def c5_bpb : BiosParameterBlock :=
  { bytes_per_sector := 512
    sectors_per_cluster := 1
    rsvd_sec_cnt := 1
    num_fats := 1
    root_entries_cnt := 16
    total_sectors_16 := 100
    fat_size_16 := 1 }

/-- The FAT32-layout fields as parsed for the c5 volume, with a nonzero
version word. -/
def c5_bpb32 : BiosParameterBlockFAT32 := { fs_ver := 1 }

/-- Claim C5 (code bug): boot-sector validation rejects this FAT12 volume
solely because of the value parsed at the BPB_FSVer offset: with fs_ver = 1
validate fails with the Unknown FS version error although every other rule
passes (the same sector with fs_ver = 0 validates and classifies as FAT12).
The fs_ver check in the source is not guarded by is_fat32, unlike the
neighbouring FAT32-only checks, so the claim (FAT12/FAT16 sectors are
accepted regardless of BPB_FSVer) fails on the code. -/
theorem c5_fsver_rejects_fat12 :
    BiosParameterBlock.validate c5_bpb c5_bpb32 = Except.error "Unknown FS version"
    ∧ BiosParameterBlock.validate c5_bpb { c5_bpb32 with fs_ver := 0 } = Except.ok ()
    ∧ BiosParameterBlock.classify c5_bpb c5_bpb32 = FATType.fat12 {} := by
  refine ⟨?_, ?_, ?_⟩ <;> decide

/-! ## Claim C3 -/

/-- A FAT32 boot block whose FSInfo sector is sector 1 of a 512-byte-sector
volume. -/
def c3_bpb : BiosParameterBlock :=
  { bytes_per_sector := 512
    rsvd_sec_cnt := 32
    num_fats := 2
    total_sectors_32 := 70000
    fat_type := FATType.fat32 { fat_size := 100, fs_info := 1, root_cluster := 2 } }

/-- Claim C3 (counterexample): on an all-zero disk the FSInfo sector carries
none of the three signatures, and the FSInfo population step of
FileSystem::from_offset returns an error, which from_offset propagates with
the question-mark operator: the mount fails.  The claim states that the mount
still succeeds with fallback defaults; it does not. -/
theorem c3_invalid_fsinfo_fails_mount :
    from_offset_fs_info 0 c3_bpb (fun _ => 0) = Except.error "Error Parsing FsInfo" := by
  decide

/-- Claim C3 (amended): when a FAT32 volume is mounted and any of the three
FSInfo signatures at fs_info_sector times bytes_per_sector is invalid,
FsInfo::populate fails with the Error Parsing FsInfo error and
FileSystem::from_offset propagates that error, so the mount fails; the
derived defaults are used only for FAT12 and FAT16 volumes. -/
theorem c3_invalid_fsinfo_error (disk : Disk) (part : Nat)
    (bpb : BiosParameterBlock) (s : BiosParameterBlockFAT32)
    (hft : bpb.fat_type = FATType.fat32 s)
    (hbad : ¬ (readU32 disk (part + s.fs_info * bpb.bytes_per_sector) = FsInfo.LEAD_SIG ∧
      readU32 disk (part + s.fs_info * bpb.bytes_per_sector + 484) = FsInfo.STRUC_SIG ∧
      readU32 disk (part + s.fs_info * bpb.bytes_per_sector + 508) = FsInfo.TRAIL_SIG)) :
    from_offset_fs_info part bpb disk = Except.error "Error Parsing FsInfo" := by
  unfold from_offset_fs_info
  rw [hft]
  unfold FsInfo.populate
  simp only [FsInfo.is_valid]
  split
  · next h =>
    exact absurd (by simpa using h) hbad
  · rfl

/-- Claim C3 (witness): the amended theorem applied at the concrete all-zero
disk and the c3 boot block. -/
theorem c3_invalid_fsinfo_error_witness :
    from_offset_fs_info 7 c3_bpb (fun _ => 0) = Except.error "Error Parsing FsInfo" :=
  c3_invalid_fsinfo_error (fun _ => 0) 7 c3_bpb
    { fat_size := 100, fs_info := 1, root_cluster := 2 } (by decide) (by decide)

/-! ## Claim C2 -/

/-- A FAT32 filesystem with two FATs of one sector each, 512-byte sectors,
one reserved sector and mirroring enabled (ext_flags bit 7 clear), over an
all-zero disk.  FAT copy 0 occupies bytes 512 to 1023 and FAT copy 1 bytes
1024 to 1535. -/
def c2_fs : FileSystem :=
  { disk := fun _ => 0
    bpb :=
      { bytes_per_sector := 512
        sectors_per_cluster := 1
        rsvd_sec_cnt := 1
        num_fats := 2
        total_sectors_32 := 70000
        fat_type := FATType.fat32 { fat_size := 1, ext_flags := 0, root_cluster := 2 } }
    partition_offset := 0
    first_data_sec := 3
    fs_info := FsInfo.default }

/-- The state after set_entry on cluster 5 with value Next 7. -/
def c2_fs_after : FileSystem := set_entry c2_fs 5 (FatEntry.Next 7)

/-- Claim C2 (code bug): on this mirroring-enabled FAT32 volume with
num_fats = 2, set_entry(5, Next 7) writes the encoded value only into FAT
copy 0 (the entry of cluster 5 lives at byte 532) and leaves the
corresponding entry of FAT copy 1 (at byte 1044) untouched: the loop bound in
the source is 1 when mirroring_enabled and num_fats when it is not, the exact
inverse of the mirroring semantics that the ext_flags documentation in bpb.rs
and the claim describe. -/
theorem c2_mirroring_not_written :
    c2_fs.mirroring_enabled = true
    ∧ c2_fs.bpb.num_fats = 2
    ∧ readU32 c2_fs_after.disk 532 = 7
    ∧ get_entry c2_fs_after 5 = FatEntry.Next 7
    ∧ readU32 c2_fs_after.disk 1044 = 0
    ∧ c2_fs_after.disk 1044 = 0 ∧ c2_fs_after.disk 1045 = 0
    ∧ c2_fs_after.disk 1046 = 0 ∧ c2_fs_after.disk 1047 = 0 := by
  refine ⟨rfl, rfl, ?_, ?_, ?_, ?_, ?_, ?_, ?_⟩ <;> decide

/-! ## Claim C10 -/

/-- Or of bit-disjoint parts is addition: a low part below 2 to the k ored
with a multiple of 2 to the k. -/
theorem lor_low_mul_pow (k a b : Nat) (hb : b < 2 ^ k) :
    b ||| 2 ^ k * a = 2 ^ k * a + b := by
  apply Nat.eq_of_testBit_eq
  intro i
  rw [Nat.testBit_or, Nat.testBit_mul_pow_two_add a hb i, Nat.testBit_mul_pow_two]
  by_cases h : i < k
  · have hge : ¬ (i ≥ k) := by omega
    simp [h, hge]
  · have hge : i ≥ k := by omega
    have hbf : b.testBit i = false :=
      Nat.testBit_lt_two_pow (lt_of_lt_of_le hb (Nat.pow_le_pow_right (by omega) hge))
    simp [h, hge, hbf]

/-- Masking a 16-bit value with 0xF000 isolates the top nibble. -/
theorem land_F000 (x : Nat) (hx : x < 65536) :
    x &&& 61440 = 4096 * (x / 4096) := by
  apply Nat.eq_of_testBit_eq
  intro i
  rw [Nat.testBit_and]
  rw [show (4096 : Nat) = 2 ^ 12 by norm_num, Nat.testBit_mul_pow_two]
  rw [show x / 2 ^ 12 = x >>> 12 from (Nat.shiftRight_eq_div_pow x 12).symm]
  rw [Nat.testBit_shiftRight]
  rw [show (61440 : Nat) = 2 ^ 12 * 15 by norm_num, Nat.testBit_mul_pow_two]
  by_cases h12 : i ≥ 12
  · by_cases h16 : i < 16
    · have h1 : Nat.testBit 15 (i - 12) = true := by
        interval_cases i <;> decide
      have h2 : 12 + (i - 12) = i := by omega
      simp [h12, h1, h2]
    · have h1 : x.testBit i = false :=
        Nat.testBit_lt_two_pow (lt_of_lt_of_le hx (by
          calc (65536 : Nat) = 2 ^ 16 := by norm_num
          _ ≤ 2 ^ i := Nat.pow_le_pow_right (by omega) (by omega)))
      have h2 : 12 + (i - 12) = i := by omega
      rw [h2]
      simp [h1]
  · simp [h12]

/-- Bytes written by writeU8: the addressed byte holds the value reduced to a
byte, everything else is untouched. -/
theorem readU8_writeU8 (dsk : Disk) (o v p : Nat) :
    readU8 (writeU8 dsk o v) p = if p = o then v % 256 else readU8 dsk p := by
  unfold readU8 writeU8
  by_cases h : p = o <;> simp [h, Nat.mod_mod_of_dvd]

/-- The low byte written by writeU16. -/
theorem readU8_writeU16_lo (dsk : Disk) (o v : Nat) :
    readU8 (writeU16 dsk o v) o = v % 256 := by
  unfold writeU16
  rw [readU8_writeU8, readU8_writeU8]
  simp

/-- The high byte written by writeU16. -/
theorem readU8_writeU16_hi (dsk : Disk) (o v : Nat) :
    readU8 (writeU16 dsk o v) (o + 1) = v / 256 % 256 := by
  unfold writeU16
  rw [readU8_writeU8]
  simp

/-- Bytes outside the two-byte window of a writeU16 are untouched. -/
theorem readU8_writeU16_other (dsk : Disk) (o v p : Nat) (h0 : p ≠ o)
    (h1 : p ≠ o + 1) : readU8 (writeU16 dsk o v) p = readU8 dsk p := by
  unfold writeU16
  rw [readU8_writeU8, readU8_writeU8]
  simp [h0, h1]

/-- Reading a little-endian u16 entirely outside the window of a writeU16. -/
theorem readU16_writeU16_disjoint (dsk : Disk) (o v p : Nat)
    (h : p + 2 ≤ o ∨ o + 2 ≤ p) :
    readU16 (writeU16 dsk o v) p = readU16 dsk p := by
  unfold readU16
  rw [readU8_writeU16_other dsk o v p (by omega) (by omega),
    readU8_writeU16_other dsk o v (p + 1) (by omega) (by omega)]

/-- The 12-bit selection and classification performed by the FAT12 branch of
get_entry, as a function of the cluster and the packed 16-bit window. -/
def fat12_decode (cluster e0 : Nat) : FatEntry :=
  let entry := if cluster % 2 = 1 then e0 >>> 4 else e0 &&& 0x0fff
  if entry = 0 then FatEntry.Unused
  else if entry = 0x0ff7 then FatEntry.Bad
  else if entry ≥ 0xff8 then FatEntry.EndOfChain
  else FatEntry.Next entry

/-- The byte offset of the packed FAT12 entry: get_fat_offset collapses to
fat_start_sector times bytes_per_sec plus cluster + cluster / 2. -/
theorem get_fat_offset_fat12 (l : BiosParameterBlockLegacy)
    (x fss bps : Nat) :
    get_fat_offset (FATType.fat12 l) x fss bps = fss * bps + (x + x / 2) := by
  unfold get_fat_offset
  simp only
  calc (fss + (x + x / 2) / bps) * bps + (x + x / 2) % bps
      = fss * bps + ((x + x / 2) / bps * bps + (x + x / 2) % bps) := by ring
    _ = fss * bps + (x + x / 2) := by rw [Nat.div_add_mod']

/-- A read byte is below 256. -/
theorem readU8_lt (dsk : Disk) (o : Nat) : readU8 dsk o < 256 :=
  Nat.mod_lt _ (by omega)

/-- get_entry on a FAT12 volume is the fat12_decode of the packed 16-bit
window at the entry offset. -/
theorem get_entry_fat12_eq (fs : FileSystem) (l : BiosParameterBlockLegacy)
    (hft : fs.bpb.fat_type = FATType.fat12 l) (x : Nat) :
    get_entry fs x = fat12_decode x (readU16 fs.disk
      (fs.partition_offset + (fs.fat_start_sector * fs.bytes_per_sec + (x + x / 2)))) := by
  unfold get_entry fat12_decode
  rw [hft, get_fat_offset_fat12]
  rfl

/-- get_entry_fat12_eq restated for a filesystem whose disk was replaced,
with the geometry projections already reduced. -/
theorem get_entry_fat12_eq_disk (fs : FileSystem) (l : BiosParameterBlockLegacy)
    (hft : fs.bpb.fat_type = FATType.fat12 l) (W : Disk) (x : Nat) :
    get_entry { fs with disk := W } x = fat12_decode x (readU16 W
      (fs.partition_offset + (fs.fat_start_sector * fs.bytes_per_sec + (x + x / 2)))) :=
  get_entry_fat12_eq { fs with disk := W } l hft x

/-- set_entry on a FAT12 volume rewrites only the packed 16-bit window at the
entry offset, by read-modify-write of that window. -/
theorem set_entry_fat12_eq (fs : FileSystem) (l : BiosParameterBlockLegacy)
    (hft : fs.bpb.fat_type = FATType.fat12 l) (c : Nat) (v : FatEntry) :
    set_entry fs c v = { fs with disk := (writeU16 fs.disk
      (fs.partition_offset + (fs.fat_start_sector * fs.bytes_per_sec + (c + c / 2)))
      (if c % 2 = 1 then
        (readU16 fs.disk
          (fs.partition_offset + (fs.fat_start_sector * fs.bytes_per_sec + (c + c / 2)))
            &&& 0x000F) ||| (fat12_raw_val v <<< 4) % 65536
      else
        (readU16 fs.disk
          (fs.partition_offset + (fs.fat_start_sector * fs.bytes_per_sec + (c + c / 2)))
            &&& 0xF000) ||| fat12_raw_val v)) } := by
  unfold set_entry
  rw [hft, get_fat_offset_fat12]
  rfl

/-- The disk-level heart of claim C10: rewriting the packed window of cluster
c changes no other decoded 12-bit entry, including the neighbour sharing a
byte, provided the encoded value fits in 12 bits.  P is the partition offset
and S the byte offset of the FAT start. -/
theorem fat12_window_frame (dsk : Disk) (P S c d raw : Nat)
    (hraw : raw < 4096) (hne : d ≠ c) :
    fat12_decode d (readU16
      (writeU16 dsk (P + (S + (c + c / 2)))
        (if c % 2 = 1 then
          (readU16 dsk (P + (S + (c + c / 2))) &&& 0x000F) ||| (raw <<< 4) % 65536
        else
          (readU16 dsk (P + (S + (c + c / 2))) &&& 0xF000) ||| raw))
      (P + (S + (d + d / 2))))
    = fat12_decode d (readU16 dsk (P + (S + (d + d / 2)))) := by
  have hcases : ((d + d / 2) + 2 ≤ c + c / 2 ∨ (c + c / 2) + 2 ≤ d + d / 2) ∨
      (c % 2 = 0 ∧ d = c + 1) ∨ (c % 2 = 1 ∧ d + 1 = c) := by omega
  have h16 : readU16 dsk (P + (S + (c + c / 2))) < 65536 := by
    unfold readU16
    have := readU8_lt dsk (P + (S + (c + c / 2)))
    have := readU8_lt dsk (P + (S + (c + c / 2)) + 1)
    omega
  rcases hcases with hdis | ⟨hpar, hd⟩ | ⟨hpar, hd⟩
  · rw [readU16_writeU16_disjoint dsk _ _ _ (by omega)]
  · -- c even, d = c + 1: the two windows share the upper byte of the pair;
    -- the write keeps the high nibble of that byte.
    subst hd
    have hpar' : ¬ (c % 2 = 1) := by omega
    rw [if_neg hpar']
    have habs : P + (S + ((c + 1) + (c + 1) / 2)) =
        (P + (S + (c + c / 2))) + 1 := by omega
    rw [habs]
    have hdpar : (c + 1) % 2 = 1 := by omega
    unfold fat12_decode
    rw [if_pos hdpar, if_pos hdpar]
    have hkey : readU16
        (writeU16 dsk (P + (S + (c + c / 2)))
          ((readU16 dsk (P + (S + (c + c / 2))) &&& 61440) ||| raw))
        ((P + (S + (c + c / 2))) + 1) >>> 4
        = readU16 dsk ((P + (S + (c + c / 2))) + 1) >>> 4 := by
      set o := P + (S + (c + c / 2)) with ho
      set old16 := readU16 dsk o with hold
      have hnew : (old16 &&& 61440) ||| raw = 4096 * (old16 / 4096) + raw := by
        rw [land_F000 old16 h16, Nat.lor_comm,
          show (4096 : Nat) * (old16 / 4096) = 2 ^ 12 * (old16 / 4096) by norm_num]
        exact lor_low_mul_pow 12 (old16 / 4096) raw hraw
      rw [hnew]
      unfold readU16
      rw [readU8_writeU16_other dsk o _ (o + 1 + 1) (by omega) (by omega)]
      rw [show o + 1 = o + 1 from rfl]
      rw [readU8_writeU16_hi]
      have ho0 := readU8_lt dsk o
      have ho1 := readU8_lt dsk (o + 1)
      have ho2 := readU8_lt dsk (o + 1 + 1)
      rw [Nat.shiftRight_eq_div_pow, Nat.shiftRight_eq_div_pow]
      have hexp : old16 = readU8 dsk o + readU8 dsk (o + 1) * 256 := by
        rw [hold]; rfl
      omega
    rw [hkey]
  · -- c odd, d = c - 1: the two windows share the lower byte of the pair;
    -- the write keeps the low nibble of that byte.
    have hpar' : c % 2 = 1 := hpar
    rw [if_pos hpar']
    have habs : P + (S + (c + c / 2)) = (P + (S + (d + d / 2))) + 1 := by omega
    have hdpar : ¬ (d % 2 = 1) := by omega
    unfold fat12_decode
    rw [if_neg hdpar, if_neg hdpar]
    rw [habs]
    have hkey : readU16
        (writeU16 dsk ((P + (S + (d + d / 2))) + 1)
          ((readU16 dsk ((P + (S + (d + d / 2))) + 1) &&& 15) |||
            (raw <<< 4) % 65536))
        (P + (S + (d + d / 2))) &&& 4095
        = readU16 dsk (P + (S + (d + d / 2))) &&& 4095 := by
      set o := P + (S + (d + d / 2)) with ho
      set old16 := readU16 dsk (o + 1) with hold
      have hnew : (old16 &&& 15) ||| (raw <<< 4) % 65536 =
          2 ^ 4 * raw + old16 % 16 := by
        rw [show (15 : Nat) = 2 ^ 4 - 1 by norm_num,
          Nat.and_pow_two_sub_one_eq_mod, Nat.shiftLeft_eq,
          Nat.mod_eq_of_lt (by omega : raw * 2 ^ 4 < 65536),
          Nat.mul_comm raw (2 ^ 4)]
        exact lor_low_mul_pow 4 raw (old16 % 16) (by omega)
      rw [hnew]
      unfold readU16
      rw [readU8_writeU16_other dsk (o + 1) _ o (by omega) (by omega)]
      rw [readU8_writeU16_lo]
      rw [show (4095 : Nat) = 2 ^ 12 - 1 by norm_num,
        Nat.and_pow_two_sub_one_eq_mod, Nat.and_pow_two_sub_one_eq_mod]
      have ho0 := readU8_lt dsk o
      have ho1 := readU8_lt dsk (o + 1)
      have ho2 := readU8_lt dsk (o + 1 + 1)
      have hexp : old16 = readU8 dsk (o + 1) + readU8 dsk (o + 1 + 1) * 256 := by
        rw [hold]; rfl
      omega
    rw [hkey]

/-- Claim C10: on a FAT12 volume, set_entry(c, v) performs a read-modify-write
of the shared two-byte window and changes only the 12-bit entry of cluster c:
for every other cluster d, get_entry(d) is unchanged, including the
neighbouring cluster whose entry shares a byte with the entry of c.  The
hypothesis asks that the encoded raw value fit in 12 bits, which holds for
every entry value legitimately stored on a FAT12 volume (cluster numbers
there are below 4085). -/
theorem c10_set_entry_fat12_frame (fs : FileSystem) (l : BiosParameterBlockLegacy)
    (c d : Nat) (v : FatEntry) (hft : fs.bpb.fat_type = FATType.fat12 l)
    (hraw : fat12_raw_val v < 4096) (hne : d ≠ c) :
    get_entry (set_entry fs c v) d = get_entry fs d := by
  rw [set_entry_fat12_eq fs l hft c v]
  rw [get_entry_fat12_eq fs l hft d]
  rw [get_entry_fat12_eq_disk fs l hft _ d]
  exact fat12_window_frame fs.disk fs.partition_offset
    (fs.fat_start_sector * fs.bytes_per_sec) c d (fat12_raw_val v) hraw hne

/-- A FAT12 filesystem (512-byte sectors, FAT at sector 1) whose packed table
holds Next 20 as the entry of cluster 5, sharing byte 519 with the entry of
cluster 4. -/
def c10_fs : FileSystem :=
  { disk := writeU8 (writeU8 (fun _ => 0) 519 0x45) 520 1
    bpb :=
      { bytes_per_sector := 512
        sectors_per_cluster := 1
        rsvd_sec_cnt := 1
        num_fats := 1
        root_entries_cnt := 16
        total_sectors_16 := 100
        fat_size_16 := 1
        fat_type := FATType.fat12 {} }
    partition_offset := 0
    first_data_sec := 3
    fs_info := FsInfo.default }

/-- Claim C10 (witness): the frame theorem applied at the concrete FAT12
volume, at the neighbouring pair of clusters 4 and 5 whose 12-bit entries
share byte 519: writing EndOfChain into the entry of cluster 4 leaves
get_entry of cluster 5 at Next 20. -/
theorem c10_set_entry_fat12_frame_witness :
    get_entry (set_entry c10_fs 4 FatEntry.EndOfChain) 5 = get_entry c10_fs 5
    ∧ get_entry c10_fs 5 = FatEntry.Next 20 :=
  ⟨c10_set_entry_fat12_frame c10_fs {} 4 5 FatEntry.EndOfChain rfl (by decide)
    (by decide), by decide⟩

/-! ## Claim C4 -/

/-- The requested long name textfile.txt as Unicode scalars. -/
def c4_name : List Nat := [116, 101, 120, 116, 102, 105, 108, 101, 46, 116, 120, 116]

/-- The generator for textfile.txt after a sibling scan observed an exact
collision and collisions for the tilde suffixes 1 through 4 (the bytes fed to
add_name are exactly the successive generate outputs). -/
def c4_g : ShortNameGen :=
  (((((ShortNameGen.new c4_name).add_name
    [69, 32, 32, 32, 32, 32, 32, 32, 84, 32, 32]).add_name
    [126, 49, 32, 32, 32, 32, 32, 32, 84, 32, 32]).add_name
    [126, 50, 32, 32, 32, 32, 32, 32, 84, 32, 32]).add_name
    [126, 51, 32, 32, 32, 32, 32, 32, 84, 32, 32]).add_name
    [126, 52, 32, 32, 32, 32, 32, 32, 84, 32, 32]

/-- Claim C4 (counterexample): after collisions on the tilde suffixes 1
through 4 only, with suffix 5 never observed as colliding, generate already
switches to the 4-hex-digit checksum form (here 0000~1, since the stored
checksum state starts at 0) instead of trying the tilde-5 form: the
long-prefix loop in the source runs over 1..5, not 1..9. -/
theorem c4_switches_after_four :
    ShortNameGen.generate c4_g =
      Except.ok [48, 48, 48, 48, 126, 49, 32, 32, 84, 32, 32]
    ∧ c4_g.suffix_bitmask &&& (1 <<< 5) = 0
    ∧ ShortNameGen.generate c4_g ≠
      Except.ok (c4_g.build_prefixed_name 5 false) := by
  refine ⟨?_, ?_, ?_⟩ <;> decide

/-- find? over the four-element range 1..4 returns the least index satisfying
the predicate. -/
theorem find?_range4 (p : Nat → Bool) (i : Nat) (h1 : 1 ≤ i) (h4 : i ≤ 4)
    (hp : p i = true) (hlt : ∀ j, 1 ≤ j → j < i → p j = false) :
    (List.range' 1 4).find? p = some i := by
  have e1 : List.range' 1 4 = [1, 2, 3, 4] := rfl
  rw [e1]
  interval_cases i
  · simp [List.find?, hp]
  · simp [List.find?, hp, hlt 1 (by omega) (by omega)]
  · simp [List.find?, hp, hlt 1 (by omega) (by omega), hlt 2 (by omega) (by omega)]
  · simp [List.find?, hp, hlt 1 (by omega) (by omega), hlt 2 (by omega) (by omega),
      hlt 3 (by omega) (by omega)]

/-- find? over the nine-element range 1..9 returns the least index satisfying
the predicate. -/
theorem find?_range9 (p : Nat → Bool) (i : Nat) (h1 : 1 ≤ i) (h9 : i ≤ 9)
    (hp : p i = true) (hlt : ∀ j, 1 ≤ j → j < i → p j = false) :
    (List.range' 1 9).find? p = some i := by
  have e1 : List.range' 1 9 = [1, 2, 3, 4, 5, 6, 7, 8, 9] := rfl
  rw [e1]
  have hj : ∀ j, 1 ≤ j → j < i → p j = false := hlt
  interval_cases i <;>
    simp [List.find?, hp, hj 1, hj 2, hj 3, hj 4, hj 5, hj 6, hj 7, hj 8]

/-- Claim C4 (amended): when the requested name needs a numeric tail (lossy,
not fitting, or colliding exactly) and is not dot or dotdot, the generator
tries the tilde suffixes only for N in 1..4: it returns the prefixed form
with the least non-colliding N of that range, and as soon as all of 1..4 are
observed as colliding it switches to the checksum form (at most two basename
bytes, four hex digits of the stored checksum state, then a tilde suffix with
N in 1..9, again the least non-colliding one). -/
theorem c4_generate_ranges (g : ShortNameGen) (h1 : g.is_dot = false)
    (h2 : g.is_dotdot = false)
    (h3 : g.is_lossy = true ∨ g.name_fits = false ∨ g.exact_match = true) :
    (∀ i, 1 ≤ i → i ≤ 4 → g.suffix_bitmask &&& (1 <<< i) = 0 →
      (∀ j, 1 ≤ j → j < i → g.suffix_bitmask &&& (1 <<< j) ≠ 0) →
      g.generate = Except.ok (g.build_prefixed_name i false))
    ∧ ((∀ i, 1 ≤ i → i ≤ 4 → g.suffix_bitmask &&& (1 <<< i) ≠ 0) →
      ∀ j, 1 ≤ j → j ≤ 9 → g.checksum_bitmask &&& (1 <<< j) = 0 →
      (∀ k, 1 ≤ k → k < j → g.checksum_bitmask &&& (1 <<< k) ≠ 0) →
      g.generate = Except.ok (g.build_prefixed_name j true)) := by
  have hdots : ¬ (g.is_dot = true ∨ g.is_dotdot = true) := by
    simp [h1, h2]
  have hlossy : ¬ (¬ g.is_lossy = true ∧ g.name_fits = true ∧
      ¬ g.exact_match = true) := by
    rcases h3 with h | h | h <;> simp [h]
  constructor
  · intro i hi1 hi4 hclear hbelow
    unfold ShortNameGen.generate
    rw [if_neg hdots, if_neg hlossy]
    rw [find?_range4 _ i hi1 hi4 (by simp [hclear])
      (fun j hj1 hj2 => by
        have := hbelow j hj1 hj2
        simp [this])]
  · intro hall j hj1 hj9 hclear hbelow
    unfold ShortNameGen.generate
    rw [if_neg hdots, if_neg hlossy]
    have hnone : (List.range' 1 4).find?
        (fun i => g.suffix_bitmask &&& (1 <<< i) = 0) = none := by
      rw [List.find?_eq_none]
      intro x hx
      have hx' : 1 ≤ x ∧ x ≤ 4 := by
        have e1 : List.range' 1 4 = [1, 2, 3, 4] := rfl
        rw [e1] at hx
        simp at hx
        omega
      have := hall x hx'.1 hx'.2
      simp [this]
    rw [hnone]
    rw [find?_range9 _ j hj1 hj9 (by simp [hclear])
      (fun k hk1 hk2 => by
        have := hbelow k hk1 hk2
        simp [this])]

/-- Claim C4 (witness): the amended theorem applied at the concrete generator
for textfile.txt after an exact-collision scan: the tilde-1 long-prefix form
is produced first. -/
theorem c4_generate_ranges_witness :
    ShortNameGen.generate ((ShortNameGen.new c4_name).add_name
      [69, 32, 32, 32, 32, 32, 32, 32, 84, 32, 32]) =
      Except.ok (((ShortNameGen.new c4_name).add_name
        [69, 32, 32, 32, 32, 32, 32, 32, 84, 32, 32]).build_prefixed_name 1 false) :=
  (c4_generate_ranges _ (by decide) (by decide) (Or.inr (Or.inr (by decide)))).1
    1 (by decide) (by decide) (by decide)
    (fun j hj1 hj2 => absurd hj2 (by omega))

/-! ## Claim C9 -/

/-- A short entry with an all-zero name; its rotate checksum is 0. -/
def c9_sfn : ShortDirEntry := {}

/-- An LFN record with ordinal 1 plus the 0x40 flag and checksum 5. -/
def c9_l1 : LongDirEntry := { ord := 0x41, chksum := 5 }

/-- An LFN record with ordinal 2 plus the 0x40 flag and checksum 0. -/
def c9_l2 : LongDirEntry := { ord := 0x42, chksum := 0 }

/-- An LFN group in which the ordinals ascend (0x41 then 0x42), the first
checksum disagrees with the terminating short entry, and only the second
0x40-flagged record matches it. -/
def c9_group : List DirEntryRaw :=
  [DirEntryRaw.Long c9_l1, DirEntryRaw.Long c9_l2, DirEntryRaw.Short c9_sfn]

/-- Claim C9 (counterexample): construct_dentry emits this group although the
ordinals do not descend by one from (n | 0x40) down to 1 (they ascend: 1 with
the flag, then 2 with the flag) and the checksum of the first record (5)
differs from the checksum of the SFN (0): a record carrying the 0x40 flag
restarts the assembly state, and only the final restart is checked against
the SFN. -/
theorem c9_orphan_group_emitted :
    construct_dentry c9_group = Except.ok (c9_sfn, [])
    ∧ c9_l1.ord &&& 0x1f = 1 ∧ c9_l2.ord &&& 0x1f = 2
    ∧ c9_l1.chksum ≠ c9_sfn.compute_checksum := by
  refine ⟨?_, ?_, ?_, ?_⟩ <;> decide

/-- The ordinal and checksum state machine of LongNameGen::process, stripped
of name assembly: from a current countdown index and checksum, scan the LFN
records; a 0x40-flagged record restarts the state from its own ordinal and
checksum, any other record must continue the countdown by exactly one with
the same checksum.  Returns the final state, or none when the discipline is
violated. -/
def lfn_scan : Nat → Nat → List LongDirEntry → Option (Nat × Nat)
  | idx, cs, [] => some (idx, cs)
  | idx, cs, l :: rest =>
    let i := l.ord &&& 0x1f
    if i = 0 then none
    else if l.is_last then lfn_scan i l.chksum rest
    else if idx = 0 ∨ i ≠ idx - 1 ∨ cs ≠ l.chksum then none
    else lfn_scan (idx - 1) cs rest

/-- construct_fold succeeds exactly on all-long record lists on which the
stripped state machine succeeds, and the two track the same index and
checksum state. -/
theorem construct_fold_scan (ls : List DirEntryRaw) :
    ∀ g g1 : LongNameGen, construct_fold g ls = Except.ok g1 →
      ∃ lls : List LongDirEntry, ls = lls.map DirEntryRaw.Long ∧
        lfn_scan g.index g.chksum lls = some (g1.index, g1.chksum) := by
  induction ls with
  | nil =>
    intro g g1 h
    refine ⟨[], rfl, ?_⟩
    unfold construct_fold at h
    cases h
    rfl
  | cons e rest ih =>
    intro g g1 h
    match e with
    | DirEntryRaw.Long l =>
      unfold construct_fold at h
      simp only [bind, Except.bind] at h
      cases hp : LongNameGen.process g l with
      | error s => rw [hp] at h; cases h
      | ok g2 =>
        rw [hp] at h
        obtain ⟨lls, hls, hscan⟩ := ih g2 g1 h
        refine ⟨l :: lls, by rw [hls]; rfl, ?_⟩
        unfold LongNameGen.process at hp
        unfold lfn_scan
        by_cases hi : l.order &&& 0x1f = 0
        · rw [if_pos hi] at hp; cases hp
        · rw [if_neg hi] at hp
          have hord : l.ord &&& 0x1f = l.order &&& 0x1f := rfl
          rw [hord, if_neg hi]
          by_cases hlast : l.is_last
          · simp only [hlast, if_pos] at hp ⊢
            cases hp
            simpa using hscan
          · simp only [hlast, if_neg, Bool.false_eq_true, if_false] at hp ⊢
            by_cases hbad : g.index = 0 ∨ l.order &&& 0x1f ≠ g.index - 1 ∨
                g.chksum ≠ l.chksum
            · rw [if_pos hbad] at hp; cases hp
            · rw [if_neg hbad] at hp
              rw [if_neg (by exact hbad)]
              cases hp
              simpa using hscan
    | DirEntryRaw.Short s => unfold construct_fold at h; cases h
    | DirEntryRaw.Free => unfold construct_fold at h; cases h
    | DirEntryRaw.FreeRest => unfold construct_fold at h; cases h

/-- Claim C9 (amended): every entry emitted by construct_dentry comes from a
group consisting of LFN records followed by exactly the terminating SFN; the
physically-first record carries the 0x40 flag; the records obey the stripped
state machine (a 0x40-flagged record restarts the countdown from its own
ordinal, every other record continues the countdown by exactly one with an
unchanged checksum, and no ordinal-and-0x1f is zero); and the checksum of the
final run equals the checksum computed over the 11-byte name of the SFN.
Ordinals need not descend to 1 and earlier runs need not match the SFN
checksum. -/
theorem c9_emitted_group_discipline (g : List DirEntryRaw)
    (sfn : ShortDirEntry) (name : List Nat)
    (h : construct_dentry g = Except.ok (sfn, name)) :
    ∃ lls : List LongDirEntry,
      g = lls.map DirEntryRaw.Long ++ [DirEntryRaw.Short sfn] ∧
      (∀ l0 ∈ lls.head?, l0.is_last = true) ∧
      ∃ p : Nat × Nat, lfn_scan 0 0 lls = some p ∧
        p.2 = sfn.compute_checksum := by
  unfold construct_dentry at h
  by_cases hlen : g.length = 0
  · rw [if_pos hlen] at h; cases h
  · rw [if_neg hlen] at h
    by_cases hshape : ¬ (g.headD DirEntryRaw.Free).is_last = true ∨
        ¬ (g.getLastD DirEntryRaw.Free).is_short = true
    · rw [if_pos hshape] at h; cases h
    · rw [if_neg hshape] at h
      push_neg at hshape
      cases hlast : g.getLastD DirEntryRaw.Free with
      | Short s =>
        rw [hlast] at h
        simp only [bind, Except.bind] at h
        cases hfold : construct_fold {} g.dropLast with
        | error e => rw [hfold] at h; cases h
        | ok g1 =>
          rw [hfold] at h
          dsimp only at h
          cases hval : g1.validate_checksum s with
          | error e =>
            rw [hval] at h
            dsimp only at h
            cases h
          | ok u =>
            rw [hval] at h
            dsimp only at h
            cases h
            obtain ⟨lls, hls, hscan⟩ := construct_fold_scan g.dropLast {} g1 hfold
            have hne : g ≠ [] := by
              intro hh; rw [hh] at hlen; exact hlen rfl
            have hg : g = g.dropLast ++ [DirEntryRaw.Short sfn] := by
              conv_lhs => rw [← List.dropLast_append_getLast hne]
              congr 1
              rw [List.getLastD_eq_getLast? , List.getLast?_eq_getLast g hne] at hlast
              simp only [Option.getD_some] at hlast
              rw [hlast]
            have hcs : g1.chksum = sfn.compute_checksum := by
              unfold LongNameGen.validate_checksum at hval
              by_cases hc : g1.chksum ≠ sfn.compute_checksum
              · rw [if_pos hc] at hval; cases hval
              · push_neg at hc; exact hc
            refine ⟨lls, by rw [hg, hls], ?_, (g1.index, g1.chksum), ?_, hcs⟩
            · intro l0 hl0
              cases lls with
              | nil => cases hl0
              | cons a tl =>
                simp only [List.head?_cons, Option.mem_def, Option.some.injEq] at hl0
                have hhead : g.headD DirEntryRaw.Free = DirEntryRaw.Long a := by
                  rw [hg, hls]
                  rfl
                have hh := hshape.1
                rw [hhead] at hh
                rw [← hl0]
                simpa [DirEntryRaw.is_last] using hh
            · exact hscan
      | Long l => rw [hlast] at h; cases h
      | Free => rw [hlast] at h; cases h
      | FreeRest => rw [hlast] at h; cases h

/-- Claim C9 (witness): the amended discipline theorem applied to the
concrete two-record group of the counterexample. -/
theorem c9_emitted_group_discipline_witness :
    ∃ lls : List LongDirEntry,
      c9_group = lls.map DirEntryRaw.Long ++ [DirEntryRaw.Short c9_sfn] ∧
      (∀ l0 ∈ lls.head?, l0.is_last = true) ∧
      ∃ p : Nat × Nat, lfn_scan 0 0 lls = some p ∧
        p.2 = c9_sfn.compute_checksum :=
  c9_emitted_group_discipline c9_group c9_sfn [] (by decide)

/-! ## Claim C7 -/

/-- A mounted FAT32 volume: 512-byte sectors, 1 sector per cluster, 1
reserved sector, one FAT of one sector, data region from sector 2, 20 total
sectors; the FAT holds EndOfChain for cluster 2 and zeroes elsewhere. -/
def c7_fs : FileSystem :=
  { disk := writeU32 (fun _ => 0) 520 0x0FFFFFFF
    bpb :=
      { bytes_per_sector := 512
        sectors_per_cluster := 1
        rsvd_sec_cnt := 1
        num_fats := 1
        total_sectors_32 := 20
        fat_type := FATType.fat32 { fat_size := 1, ext_flags := 0, root_cluster := 2 } }
    partition_offset := 0
    first_data_sec := 2
    fs_info := FsInfo.default }

/-- A file of size exactly one cluster (512 bytes), stored in the one-cluster
chain at cluster 2, with its directory entry in cluster 3 at offset 0. -/
def c7_file : File :=
  { first_cluster := 2
    short_dir_entry :=
      { dir_name := [72, 69, 76, 76, 79, 32, 32, 32, 84, 88, 84]
        file_attrs := 0x20
        fst_clus_lo := 2
        file_size := 512 }
    loc := ((3, 0), (3, 0)) }

/-- The outcome of writing one byte at offset 512 (the end of the file). -/
def c7_write_result : Except String (Nat × File × FileSystem) :=
  c7_file.write c7_fs [0xAB] 512

/-- Claim C7 (code bug): writing one byte at offset 512 on this 512-byte file
(well within the claim bound, 512 + 1 being far below the u32 maximum)
reports 0 bytes written although ensure_len bumps the stored size to 513, and
the subsequent read of 1 byte at offset 512 returns 0 bytes, not the written
buffer: ensure_len computes the space left in the last cluster as
bytes_per_cluster - size mod bytes_per_cluster, which is a whole free cluster
when the size is cluster-aligned, so no cluster is allocated, and both the
write and the read walks fall off the one-cluster chain.  The write-then-read
round trip of the claim fails. -/
theorem c7_write_read_roundtrip_fails :
    c7_write_result.map (fun r => r.1) = Except.ok 0
    ∧ c7_write_result.map (fun r => r.2.1.size) = Except.ok 513
    ∧ c7_write_result.map (fun r => r.2.1.read r.2.2 1 512) = Except.ok 0 := by
  refine ⟨?_, ?_, ?_⟩ <;> decide

/-! ## FAT32 entry infrastructure for claims C8 and C1 -/

/-- The byte offset of a FAT32 entry: get_fat_offset collapses to
fat_start_sector times bytes_per_sec plus 4 times the cluster. -/
theorem get_fat_offset_fat32 (s : BiosParameterBlockFAT32) (x fss bps : Nat) :
    get_fat_offset (FATType.fat32 s) x fss bps = fss * bps + x * 4 := by
  unfold get_fat_offset
  simp only
  calc (fss + x * 4 / bps) * bps + x * 4 % bps
      = fss * bps + (x * 4 / bps * bps + x * 4 % bps) := by ring
    _ = fss * bps + x * 4 := by rw [Nat.div_add_mod']

/-- The classification performed by the FAT32 branch of get_entry as a
function of the cluster and the masked 28-bit value. -/
def fat32_decode (cluster entry : Nat) : FatEntry :=
  if 0x0ffffff7 ≤ cluster ∧ cluster ≤ 0x0fffffff then FatEntry.Bad
  else if entry = 0 then FatEntry.Unused
  else if entry = 0x0ffffff7 then FatEntry.Bad
  else if 0x0ffffff8 ≤ entry ∧ entry ≤ 0x0fffffff then FatEntry.EndOfChain
  else FatEntry.Next entry

/-- get_entry on a FAT32 volume decodes the masked u32 at the entry offset. -/
theorem get_entry_fat32_eq (fs : FileSystem) (s : BiosParameterBlockFAT32)
    (hft : fs.bpb.fat_type = FATType.fat32 s) (x : Nat) :
    get_entry fs x = fat32_decode x (readU32 fs.disk
      (fs.partition_offset + (fs.fat_start_sector * fs.bytes_per_sec + x * 4))
      &&& 0x0FFFFFFF) := by
  unfold get_entry fat32_decode
  rw [hft, get_fat_offset_fat32]
  rfl

/-- The FAT32 write loop with bound 1 is one read-modify-write of the entry
of the active FAT copy. -/
theorem set_entry32_loop_one (part fat_offset fat_size raw : Nat) (d : Disk) :
    set_entry32_loop part fat_offset fat_size raw 1 d =
      writeU32 d (part + fat_offset)
        (raw ||| (readU32 d (part + fat_offset) &&& 0xF0000000)) := by
  unfold set_entry32_loop set_entry32_loop
  simp

/-- set_entry on a mirroring-enabled FAT32 volume writes one u32 at the entry
offset, preserving the reserved high four bits. -/
theorem set_entry_fat32_eq (fs : FileSystem) (s : BiosParameterBlockFAT32)
    (hft : fs.bpb.fat_type = FATType.fat32 s) (hmir : fs.mirroring_enabled = true)
    (c : Nat) (v : FatEntry) :
    set_entry fs c v = { fs with disk := (writeU32 fs.disk
      (fs.partition_offset + (fs.fat_start_sector * fs.bytes_per_sec + c * 4))
      (fat32_raw_val v ||| (readU32 fs.disk
        (fs.partition_offset + (fs.fat_start_sector * fs.bytes_per_sec + c * 4))
        &&& 0xF0000000))) } := by
  unfold set_entry
  rw [hft, get_fat_offset_fat32]
  have hb : (if fs.mirroring_enabled then 1 else (fs.bpb.num_fats : Nat)) = 1 := by
    rw [hmir]; rfl
  simp only [hb, set_entry32_loop_one]

/-- The low byte of writeU32. -/
theorem readU8_writeU32 (dsk : Disk) (o v p : Nat) :
    readU8 (writeU32 dsk o v) p =
      if p = o then v % 256
      else if p = o + 1 then v / 256 % 256
      else if p = o + 2 then v / 65536 % 256
      else if p = o + 3 then v / 16777216 % 256
      else readU8 dsk p := by
  unfold writeU32
  rw [readU8_writeU8, readU8_writeU8, readU8_writeU8, readU8_writeU8]
  unfold readU8
  split_ifs <;> omega

/-- Reading back the u32 just written. -/
theorem readU32_writeU32_same (dsk : Disk) (o v : Nat) :
    readU32 (writeU32 dsk o v) o = v % 2 ^ 32 := by
  unfold readU32
  rw [readU8_writeU32, readU8_writeU32, readU8_writeU32, readU8_writeU32]
  simp only [if_pos rfl]
  have h1 : ¬ (o + 1 = o) := by omega
  have h2 : ¬ (o + 2 = o) := by omega
  have h2' : ¬ (o + 2 = o + 1) := by omega
  have h3 : ¬ (o + 3 = o) := by omega
  have h3' : ¬ (o + 3 = o + 1) := by omega
  have h3'' : ¬ (o + 3 = o + 2) := by omega
  simp only [h1, h2, h2', h3, h3', h3'', if_false, if_pos rfl, if_true]
  omega

/-- Reading a u32 entirely outside the window of a writeU32. -/
theorem readU32_writeU32_disjoint (dsk : Disk) (o v p : Nat)
    (h : p + 4 ≤ o ∨ o + 4 ≤ p) :
    readU32 (writeU32 dsk o v) p = readU32 dsk p := by
  unfold readU32
  rw [readU8_writeU32, readU8_writeU32, readU8_writeU32, readU8_writeU32]
  have e : ∀ q : Nat, p ≤ q → q ≤ p + 3 →
      ((if q = o then v % 256
        else if q = o + 1 then v / 256 % 256
        else if q = o + 2 then v / 65536 % 256
        else if q = o + 3 then v / 16777216 % 256
        else readU8 dsk q) = readU8 dsk q) := by
    intro q hq1 hq2
    have hq0 : ¬ (q = o) := by omega
    have hqa : ¬ (q = o + 1) := by omega
    have hqb : ¬ (q = o + 2) := by omega
    have hqc : ¬ (q = o + 3) := by omega
    simp [hq0, hqa, hqb, hqc]
  rw [e p (by omega) (by omega), e (p + 1) (by omega) (by omega),
    e (p + 2) (by omega) (by omega), e (p + 3) (by omega) (by omega)]

/-- And distributes over or on Nat. -/
theorem nat_and_lor_right (a b m : Nat) :
    (a ||| b) &&& m = (a &&& m) ||| (b &&& m) := by
  apply Nat.eq_of_testBit_eq
  intro i
  simp only [Nat.testBit_and, Nat.testBit_or]
  cases a.testBit i <;> cases b.testBit i <;> cases m.testBit i <;> rfl

/-- Masking a value with the reserved-bits mask and then the 28-bit mask
yields zero. -/
theorem land_hi_lo_zero (x : Nat) :
    (x &&& 0xF0000000) &&& 0x0FFFFFFF = 0 := by
  rw [Nat.land_assoc]
  rw [show ((0xF0000000 : Nat) &&& 0x0FFFFFFF) = 0 from by decide]
  simp

/-- The encoded low 28 bits survive the reserved-bit preservation. -/
theorem raw_or_hi_masked (raw hi : Nat) (hraw : raw < 2 ^ 28) :
    ((raw ||| (hi &&& 0xF0000000)) &&& 0x0FFFFFFF) = raw := by
  rw [nat_and_lor_right, land_hi_lo_zero]
  simp only [Nat.or_zero]
  rw [show (0x0FFFFFFF : Nat) = 2 ^ 28 - 1 by norm_num,
    Nat.and_pow_two_sub_one_eq_mod]
  exact Nat.mod_eq_of_lt hraw

/-- What a successful FAT32 free scan guarantees: the result lies in the
scanned range, its masked entry is zero, and every cluster between the start
and the result has a nonzero masked entry. -/
theorem get_free_cluster32_loop_spec (fs : FileSystem) (endc maxc : Nat) :
    ∀ fuel cluster c, get_free_cluster32_loop fs endc maxc fuel cluster =
        Except.ok c →
      cluster ≤ c ∧ c < endc ∧ c < maxc ∧
      readU32 fs.disk (fs.get_raw_offset (get_fat_offset fs.bpb.fat_type c
        fs.fat_start_sector fs.bytes_per_sec)) &&& 0x0FFFFFFF = 0 ∧
      ∀ x, cluster ≤ x → x < c →
        readU32 fs.disk (fs.get_raw_offset (get_fat_offset fs.bpb.fat_type x
          fs.fat_start_sector fs.bytes_per_sec)) &&& 0x0FFFFFFF ≠ 0 := by
  intro fuel
  induction fuel with
  | zero => intro cluster c h; cases h
  | succ n ih =>
    intro cluster c h
    unfold get_free_cluster32_loop at h
    by_cases hcond : cluster < endc ∧ cluster < maxc
    · rw [if_pos hcond] at h
      dsimp only at h
      by_cases hval : readU32 fs.disk (fs.get_raw_offset
          (get_fat_offset fs.bpb.fat_type cluster fs.fat_start_sector
            fs.bytes_per_sec)) &&& 0x0FFFFFFF = 0
      · rw [if_pos hval] at h
        cases h
        exact ⟨Nat.le_refl _, hcond.1, hcond.2, hval,
          fun x hx1 hx2 => absurd (lt_of_le_of_lt hx1 hx2) (lt_irrefl _)⟩
      · rw [if_neg hval] at h
        obtain ⟨h1, h2, h3, h4, h5⟩ := ih (cluster + 1) c h
        refine ⟨by omega, h2, h3, h4, ?_⟩
        intro x hx1 hx2
        by_cases hx : x = cluster
        · rw [hx]; exact hval
        · exact h5 x (by omega) hx2
    · rw [if_neg hcond] at h
      cases h

/-- Bytes strictly below the block of the current offset are never touched by
the write_to loop: every write lands at the block of an advanced offset. -/
theorem write_to_loop_frame (part blk0 bufS : Nat) (buf : List Nat) :
    ∀ n offset start d x, x < (part + offset) / BLOCK_SIZE * BLOCK_SIZE →
      (FileSystem.write_to_loop part blk0 bufS buf n offset start d).2 x = d x := by
  intro n
  induction n with
  | zero => intro offset start d x hx; rfl
  | succ m ih =>
    intro offset start d x hx
    unfold FileSystem.write_to_loop
    dsimp only
    set wlen := min (BLOCK_SIZE - blk0) (buf.length - start) with hw
    have hmono : (part + offset) / BLOCK_SIZE * BLOCK_SIZE ≤
        (part + (offset + wlen)) / BLOCK_SIZE * BLOCK_SIZE :=
      Nat.mul_le_mul_right _ (Nat.div_le_div_right (by omega))
    rw [ih (offset + wlen) _ _ x (by omega)]
    have hnot : ¬ ((part + (offset + wlen)) / BLOCK_SIZE * BLOCK_SIZE ≤ x ∧
        x < (part + (offset + wlen)) / BLOCK_SIZE * BLOCK_SIZE + bufS) := by
      omega
    rw [if_neg hnot]

/-- write_to of a buffer that fits strictly inside one disk block: the
reported count is the full length and the net disk effect replaces exactly
the addressed byte range. -/
theorem write_to_single (fs : FileSystem) (offset : Nat) (buf : List Nat)
    (hlen : 0 < buf.length)
    (hfit : (fs.partition_offset + offset) % BLOCK_SIZE + buf.length < BLOCK_SIZE) :
    (fs.write_to offset buf).1 = buf.length ∧
    ∀ x, (fs.write_to offset buf).2.disk x =
      if fs.partition_offset + offset ≤ x ∧
          x < fs.partition_offset + offset + buf.length
      then buf.getD (x - (fs.partition_offset + offset)) 0 % 256
      else fs.disk x := by
  have hB : BLOCK_SIZE = 4096 := rfl
  have hnum : (buf.length + BLOCK_SIZE - 1) / BLOCK_SIZE = 1 := by
    rw [hB]; rw [hB] at hfit; omega
  unfold FileSystem.write_to
  rw [hnum]
  unfold FileSystem.write_to_loop FileSystem.write_to_loop
  dsimp only
  unfold FileSystem.get_block_offset FileSystem.get_raw_offset
  set A := fs.partition_offset + offset with hA
  have hwlen : min (BLOCK_SIZE - A % BLOCK_SIZE) (buf.length - 0) = buf.length := by
    rw [hB]; rw [hB] at hfit; omega
  rw [hwlen]
  have hbase2 : (fs.partition_offset + (offset + buf.length)) / BLOCK_SIZE =
      A / BLOCK_SIZE := by
    rw [hB]; rw [hB] at hfit
    have h1 : fs.partition_offset + (offset + buf.length) = A + buf.length := by
      omega
    rw [h1]
    omega
  have hSge : block_buf_len A BLOCK_SIZE ≥ A % BLOCK_SIZE + BLOCK_SIZE := by
    unfold block_buf_len
    rw [hB]
    omega
  have hmod : A / BLOCK_SIZE * BLOCK_SIZE + A % BLOCK_SIZE = A :=
    Nat.div_add_mod' A BLOCK_SIZE
  constructor
  · omega
  · intro x
    rw [hbase2]
    by_cases hwin : A ≤ x ∧ x < A + buf.length
    · rw [if_pos hwin]
      have hin : A / BLOCK_SIZE * BLOCK_SIZE ≤ x ∧
          x < A / BLOCK_SIZE * BLOCK_SIZE + block_buf_len A BLOCK_SIZE := by
        rw [hB] at hfit ⊢
        rw [hB] at hSge hmod
        omega
      rw [if_pos hin]
      have hj : A % BLOCK_SIZE ≤ x - A / BLOCK_SIZE * BLOCK_SIZE ∧
          x - A / BLOCK_SIZE * BLOCK_SIZE < A % BLOCK_SIZE + buf.length := by
        omega
      rw [if_pos hj]
      have hidx : 0 + (x - A / BLOCK_SIZE * BLOCK_SIZE - A % BLOCK_SIZE) =
          x - A := by
        omega
      rw [hidx]
    · rw [if_neg hwin]
      by_cases hin : A / BLOCK_SIZE * BLOCK_SIZE ≤ x ∧
          x < A / BLOCK_SIZE * BLOCK_SIZE + block_buf_len A BLOCK_SIZE
      · rw [if_pos hin]
        have hj : ¬ (A % BLOCK_SIZE ≤ x - A / BLOCK_SIZE * BLOCK_SIZE ∧
            x - A / BLOCK_SIZE * BLOCK_SIZE < A % BLOCK_SIZE + buf.length) := by
          omega
        rw [if_neg hj]
        have hx : A / BLOCK_SIZE * BLOCK_SIZE +
            (x - A / BLOCK_SIZE * BLOCK_SIZE) = x := by
          omega
        rw [hx]
      · rw [if_neg hin]

/-! ## Claim C8 -/

/-- A mounted FAT32 volume: 512-byte sectors, 1 sector per cluster, 1
reserved sector, one FAT of one sector (bytes 512 to 1023), data region from
sector 2 so cluster c starts at byte c * 512, 20 total sectors (max cluster
19).  The whole FAT is zero (every cluster free, including cluster 2), the
FSInfo next-free hint points at cluster 7, the free count is 13, and two
marker bytes sit in the data region: 0xAB at byte 3584 (the first byte of
cluster 7) and 0xCD at byte 7700 (inside cluster 9). -/
def c8_fs : FileSystem :=
  { disk := writeU8 (writeU8 (fun _ => 0) 3584 0xAB) 7700 0xCD
    bpb :=
      { bytes_per_sector := 512
        sectors_per_cluster := 1
        rsvd_sec_cnt := 1
        num_fats := 1
        total_sectors_32 := 20
        fat_type := FATType.fat32 { fat_size := 1, ext_flags := 0, root_cluster := 2 } }
    partition_offset := 0
    first_data_sec := 2
    fs_info :=
      { FsInfo.default with
          free_count := 13
          next_free := 7 } }

set_option maxRecDepth 100000 in
/-- Claim C8 (code bug): allocate_cluster with predecessor 3 on this volume
does start the scan at the FSInfo hint 7 (cluster 2 is also free, yet 7 is
returned), writes EndOfChain into cluster 7, links cluster 3 to it,
decrements the free count from 13 to 12 and sets the hint to 8 - but the
zero-fill of the data region of cluster 7 is misplaced: because the region
(bytes 3584 to 4095) ends at a 4096-byte block boundary, write_to seeks to
the block of the advanced offset before writing the patched buffer back, so
the zeroes land one block late.  The marker byte 0xAB at byte 3584 survives
(the claim requires it to be zeroed) and the unrelated marker 0xCD at byte
7700, inside cluster 9, is wiped to zero instead. -/
theorem c8_allocate_misplaced_zero_fill :
    get_entry c8_fs 2 = FatEntry.Unused
    ∧ (allocate_cluster c8_fs (some 3)).map (fun r => r.1) = Except.ok 7
    ∧ (allocate_cluster c8_fs (some 3)).map (fun r => get_entry r.2 7) =
        Except.ok FatEntry.EndOfChain
    ∧ (allocate_cluster c8_fs (some 3)).map (fun r => get_entry r.2 3) =
        Except.ok (FatEntry.Next 7)
    ∧ (allocate_cluster c8_fs (some 3)).map (fun r => r.2.fs_info.free_count) =
        Except.ok 12
    ∧ (allocate_cluster c8_fs (some 3)).map (fun r => r.2.fs_info.next_free) =
        Except.ok 8
    ∧ (allocate_cluster c8_fs (some 3)).map (fun r => r.2.disk 3584) =
        Except.ok 0xAB
    ∧ (allocate_cluster c8_fs (some 3)).map (fun r => r.2.disk 7700) =
        Except.ok 0 := by
  refine ⟨?_, ?_, ?_, ?_, ?_, ?_, ?_, ?_⟩ <;> decide

/-! ## Claim C1 -/

/-- A mounted FAT32 volume with the same geometry as c8_fs (512-byte sectors
and clusters, FAT at byte 512, max cluster 19) holding the three-cluster
chain 2 to 3 to 4: the FAT stores Next 3 for cluster 2 (byte 520), Next 4
for cluster 3 (byte 524) and EndOfChain for cluster 4 (byte 528).  The free
count starts at 13. -/
def c1_fs : FileSystem :=
  { disk := writeU32 (writeU32 (writeU32 (fun _ => 0) 520 3) 524 4) 528 0x0FFFFFFF
    bpb :=
      { bytes_per_sector := 512
        sectors_per_cluster := 1
        rsvd_sec_cnt := 1
        num_fats := 1
        total_sectors_32 := 20
        fat_type := FATType.fat32 { fat_size := 1, ext_flags := 0, root_cluster := 2 } }
    partition_offset := 0
    first_data_sec := 2
    fs_info :=
      { FsInfo.default with
          free_count := 13 } }

/-- A file of 1536 bytes (three full clusters) on the chain starting at
cluster 2, with its directory entry slot in cluster 5 at offset 0. -/
def c1_file : File :=
  { first_cluster := 2
    short_dir_entry :=
      { dir_name := [72, 69, 76, 76, 79, 32, 32, 32, 84, 88, 84]
        file_attrs := 0x20
        fst_clus_lo := 2
        file_size := 1536 }
    loc := ((5, 0), (5, 0)) }

/-- Claim C1 (code bug): truncating the 1536-byte file to 512 bytes keeps the
no-op half of the claim (truncate to a size at or above the current one
returns the file and the state unchanged), updates the stored size to 512 and
flushes the directory entry (the size field at byte 2588 reads back 512), but
diverges from the shrink half: byte 511 lies in cluster 2, so the claim
requires EndOfChain in the FAT entry of cluster 2 and the chain from its
successor 3 freed; instead truncate computes the first cluster to free as
index new_size / bytes_per_cluster + 1 = 2 (cluster 4) and never writes
EndOfChain, so after the call cluster 2 still points at cluster 3, cluster 3
still points at the now-freed cluster 4 (a dangling chain into free space),
only cluster 4 is freed, and only one free cluster is gained. -/
theorem c1_truncate_diverges :
    c1_file.truncate c1_fs 2000 = Except.ok (c1_file, c1_fs)
    ∧ (c1_file.truncate c1_fs 512).map (fun r => r.1.size) = Except.ok 512
    ∧ (c1_file.truncate c1_fs 512).map (fun r => readU32 r.2.disk 2588) =
        Except.ok 512
    ∧ (c1_file.truncate c1_fs 512).map (fun r => get_entry r.2 2) =
        Except.ok (FatEntry.Next 3)
    ∧ (c1_file.truncate c1_fs 512).map (fun r => get_entry r.2 3) =
        Except.ok (FatEntry.Next 4)
    ∧ (c1_file.truncate c1_fs 512).map (fun r => get_entry r.2 4) =
        Except.ok FatEntry.Unused
    ∧ (c1_file.truncate c1_fs 512).map (fun r => r.2.fs_info.free_count) =
        Except.ok 14 := by
  refine ⟨?_, ?_, ?_, ?_, ?_, ?_, ?_⟩
  · rfl
  all_goals decide

/-! ## Claim C6 -/

/-- The counting loop of read_at never runs past len. -/
theorem read_at_count_loop_le (cap len : Nat) :
    ∀ n start, start ≤ len → FileSystem.read_at_count_loop cap len n start ≤ len := by
  intro n
  induction n with
  | zero => intro start h; exact h
  | succ m ih =>
    intro start h
    unfold FileSystem.read_at_count_loop
    exact ih _ (by omega)

/-- The counting loop of read_at never moves backwards. -/
theorem read_at_count_loop_ge (cap len : Nat) :
    ∀ n start, start ≤ FileSystem.read_at_count_loop cap len n start := by
  intro n
  induction n with
  | zero => intro start; exact Nat.le_refl _
  | succ m ih =>
    intro start
    unfold FileSystem.read_at_count_loop
    exact le_trans (by omega) (ih (start + min cap (len - start)))

/-- With a positive per-block capacity and at least one iteration, the
counting loop makes strict progress from any position below len. -/
theorem read_at_count_loop_pos (cap len : Nat) (hcap : 0 < cap) :
    ∀ n start, 0 < n → start < len →
      start < FileSystem.read_at_count_loop cap len n start := by
  intro n
  cases n with
  | zero => intro start h; omega
  | succ m =>
    intro start _ hlt
    unfold FileSystem.read_at_count_loop
    exact lt_of_lt_of_le (by omega) (read_at_count_loop_ge cap len m _)

/-- FileSystem::read_at reports at most the requested byte count. -/
theorem read_at_count_le (fs : FileSystem) (off len : Nat) :
    fs.read_at_count off len ≤ len := by
  unfold FileSystem.read_at_count
  exact read_at_count_loop_le _ _ _ 0 (Nat.zero_le _)

/-- FileSystem::read_at reports at least one byte when at least one byte is
requested: the fixed per-iteration capacity BLOCK_SIZE minus the intra-block
offset is positive, and at least one iteration runs. -/
theorem read_at_count_pos (fs : FileSystem) (off len : Nat) (h : 0 < len) :
    0 < fs.read_at_count off len := by
  unfold FileSystem.read_at_count
  apply read_at_count_loop_pos
  · have := Nat.mod_lt (fs.partition_offset + off) (show 0 < BLOCK_SIZE by decide)
    unfold FileSystem.get_block_offset
    omega
  · have hB : BLOCK_SIZE = 4096 := rfl
    rw [hB]
    omega
  · exact h

/-- Dropping elements preserves the chain discipline. -/
theorem chain_drop {α : Type} {R : α → α → Prop} :
    ∀ (n : Nat) (l : List α), List.Chain' R l → List.Chain' R (l.drop n) := by
  intro n
  induction n with
  | zero => intro l h; exact h
  | succ m ih =>
    intro l h
    rw [← List.tail_drop]
    exact (ih l h).tail

/-- Walking n links of a FAT chain from its head lands on element n of the
chain list. -/
theorem get_cluster_relative_chain (fs : FileSystem) :
    ∀ (n : Nat) (c : Nat) (cs : List Nat),
      List.Chain' (fun a b => get_entry fs a = FatEntry.Next b) (c :: cs) →
      n ≤ cs.length →
      fs.get_cluster_relative c n = some ((c :: cs).getD n 0) := by
  intro n
  induction n with
  | zero => intro c cs _ _; rfl
  | succ m ih =>
    intro c cs hchain hn
    cases cs with
    | nil => exact absurd hn (by simp)
    | cons c2 cs2 =>
      rw [List.chain'_cons] at hchain
      unfold FileSystem.get_cluster_relative
      rw [hchain.1, List.getD_cons_succ]
      exact ih c2 cs2 hchain.2 (by simpa using hn)

/-- The read loop transfers exactly readSize bytes whenever the chain ahead
of the current cluster covers the remaining bytes: every iteration makes
strict progress (read_at always reports at least one byte of a nonempty
request), stays within the current cluster, and follows a Next link exactly
when the intra-cluster offset reaches bytes_per_cluster. -/
theorem read_loop_full (fs : FileSystem) (bufLen readSize : Nat)
    (hbpc : 0 < fs.bytes_per_cluster) (hbuf : readSize ≤ bufLen) :
    ∀ (fuel : Nat) (cs : List Nat) (cur clOff read : Nat),
      List.Chain' (fun a b => get_entry fs a = FatEntry.Next b) (cur :: cs) →
      read < readSize →
      clOff ≤ fs.bytes_per_cluster →
      clOff + (readSize - read) ≤ (cs.length + 1) * fs.bytes_per_cluster →
      readSize - read < fuel →
      File.read_loop fs bufLen readSize fuel cur clOff read = readSize := by
  intro fuel
  induction fuel with
  | zero => intro cs cur clOff read _ _ _ _ hf; omega
  | succ m ih =>
    intro cs cur clOff read hchain hread hclOff hbound hfuel
    have hstep : ∀ (cur0 clOff0 : Nat) (cs0 : List Nat),
        List.Chain' (fun a b => get_entry fs a = FatEntry.Next b) (cur0 :: cs0) →
        clOff0 < fs.bytes_per_cluster →
        clOff0 + (readSize - read) ≤ (cs0.length + 1) * fs.bytes_per_cluster →
        (if read + fs.read_at_count (fs.cluster_offset cur0 + clOff0)
              (min (min (fs.bytes_per_cluster - clOff0) (bufLen - read))
                (readSize - read)) = readSize
         then read + fs.read_at_count (fs.cluster_offset cur0 + clOff0)
              (min (min (fs.bytes_per_cluster - clOff0) (bufLen - read))
                (readSize - read))
         else File.read_loop fs bufLen readSize m cur0
              (clOff0 + fs.read_at_count (fs.cluster_offset cur0 + clOff0)
                (min (min (fs.bytes_per_cluster - clOff0) (bufLen - read))
                  (readSize - read)))
              (read + fs.read_at_count (fs.cluster_offset cur0 + clOff0)
                (min (min (fs.bytes_per_cluster - clOff0) (bufLen - read))
                  (readSize - read)))) = readSize := by
      intro cur0 clOff0 cs0 hch0 hlt0 hbound0
      set e := min (min (fs.bytes_per_cluster - clOff0) (bufLen - read))
        (readSize - read) with he
      set r := fs.read_at_count (fs.cluster_offset cur0 + clOff0) e with hr
      have hepos : 0 < e := by omega
      have hrle : r ≤ e := read_at_count_le fs _ e
      have hrpos : 0 < r := read_at_count_pos fs _ e hepos
      by_cases hdone : read + r = readSize
      · rw [if_pos hdone]; exact hdone
      · rw [if_neg hdone]
        exact ih cs0 cur0 (clOff0 + r) (read + r) hch0 (by omega) (by omega)
          (by omega) (by omega)
    unfold File.read_loop
    dsimp only
    by_cases hge : clOff ≥ fs.bytes_per_cluster
    · rw [if_pos hge]
      have hclOffEq : clOff = fs.bytes_per_cluster := le_antisymm hclOff hge
      cases cs with
      | nil =>
        exfalso
        have h1 : (List.length ([] : List Nat) + 1) * fs.bytes_per_cluster =
            fs.bytes_per_cluster := by simp
        rw [h1] at hbound
        omega
      | cons c2 cs2 =>
        rw [List.chain'_cons] at hchain
        rw [hchain.1]
        have hmod : clOff % fs.bytes_per_cluster = 0 := by
          rw [hclOffEq]; exact Nat.mod_self _
        rw [hmod]
        have hb2 : (cs2.length + 2) * fs.bytes_per_cluster =
            (cs2.length + 1) * fs.bytes_per_cluster + fs.bytes_per_cluster := by
          ring
        have hlen : ((c2 :: cs2).length + 1) * fs.bytes_per_cluster =
            (cs2.length + 2) * fs.bytes_per_cluster := by simp [Nat.succ_eq_add_one]
        rw [hlen] at hbound
        exact hstep c2 0 cs2 hchain.2 hbpc (by omega)
    · rw [if_neg hge]
      exact hstep cur clOff cs hchain (by omega) hbound

/-- Claim C6: for a file whose FAT chain (starting at its first cluster)
covers its stored size, File::read returns 0 when the offset is at or past
the size, and exactly min(buffer length, size minus offset) bytes otherwise,
walking the chain from cluster index offset / bytes_per_cluster at
intra-cluster offset offset % bytes_per_cluster.  (When the chain would end
prematurely the loop stops at the bytes actually copied; in this count model
that case is excluded by the covering hypothesis.) -/
theorem c6_read_count_exact (f : File) (fs : FileSystem) (bufLen offset : Nat)
    (rest : List Nat)
    (hbpc : 0 < fs.bytes_per_cluster)
    (hchain : List.Chain' (fun a b => get_entry fs a = FatEntry.Next b)
      (f.first_cluster :: rest))
    (hcover : f.size ≤ (rest.length + 1) * fs.bytes_per_cluster) :
    f.read fs bufLen offset =
      if f.size ≤ offset then 0 else min bufLen (f.size - offset) := by
  unfold File.read
  by_cases hoff : offset ≥ f.size
  · rw [if_pos hoff, if_pos hoff]
  · rw [if_neg hoff, if_neg hoff]
    dsimp only
    have hofflt : offset < f.size := by omega
    have hlen : offset / fs.bytes_per_cluster < rest.length + 1 :=
      (Nat.div_lt_iff_lt_mul hbpc).mpr (lt_of_lt_of_le hofflt hcover)
    have hlen2 : offset / fs.bytes_per_cluster < (f.first_cluster :: rest).length := by
      simpa using hlen
    have hrel := get_cluster_relative_chain fs (offset / fs.bytes_per_cluster)
      f.first_cluster rest hchain (by omega)
    rw [hrel]
    dsimp only
    have hdropeq : (f.first_cluster :: rest).getD (offset / fs.bytes_per_cluster) 0 ::
        (f.first_cluster :: rest).drop (offset / fs.bytes_per_cluster + 1) =
        (f.first_cluster :: rest).drop (offset / fs.bytes_per_cluster) := by
      rw [List.getD_eq_getElem _ _ hlen2]
      exact (List.drop_eq_getElem_cons hlen2).symm
    have hmlt : offset % fs.bytes_per_cluster < fs.bytes_per_cluster :=
      Nat.mod_lt _ hbpc
    by_cases hrs0 : min bufLen (f.size - offset) = 0
    · rw [hrs0]
      unfold File.read_loop
      dsimp only
      rw [if_neg (by omega)]
      have hr : fs.read_at_count
          (fs.cluster_offset ((f.first_cluster :: rest).getD
            (offset / fs.bytes_per_cluster) 0) + offset % fs.bytes_per_cluster)
          (min (min (fs.bytes_per_cluster - offset % fs.bytes_per_cluster)
            (bufLen - 0)) (0 - 0)) = 0 := by
        have := read_at_count_le fs
          (fs.cluster_offset ((f.first_cluster :: rest).getD
            (offset / fs.bytes_per_cluster) 0) + offset % fs.bytes_per_cluster)
          (min (min (fs.bytes_per_cluster - offset % fs.bytes_per_cluster)
            (bufLen - 0)) (0 - 0))
        omega
      rw [hr]
      simp
    · apply read_loop_full fs bufLen (min bufLen (f.size - offset)) hbpc
        (by omega) (min bufLen (f.size - offset) + 1)
        ((f.first_cluster :: rest).drop (offset / fs.bytes_per_cluster + 1))
        ((f.first_cluster :: rest).getD (offset / fs.bytes_per_cluster) 0)
        (offset % fs.bytes_per_cluster) 0
      · rw [hdropeq]
        exact chain_drop _ _ hchain
      · omega
      · omega
      · have hdm : offset / fs.bytes_per_cluster * fs.bytes_per_cluster +
            offset % fs.bytes_per_cluster = offset := Nat.div_add_mod' _ _
        have hlendrop : ((f.first_cluster :: rest).drop
            (offset / fs.bytes_per_cluster + 1)).length =
            rest.length - offset / fs.bytes_per_cluster := by
          rw [List.length_drop]
          simp
        rw [hlendrop]
        have hmul : (rest.length - offset / fs.bytes_per_cluster + 1) *
            fs.bytes_per_cluster +
            offset / fs.bytes_per_cluster * fs.bytes_per_cluster =
            (rest.length + 1) * fs.bytes_per_cluster := by
          have h1 : rest.length - offset / fs.bytes_per_cluster + 1 +
              offset / fs.bytes_per_cluster = rest.length + 1 := by omega
          calc (rest.length - offset / fs.bytes_per_cluster + 1) *
              fs.bytes_per_cluster +
              offset / fs.bytes_per_cluster * fs.bytes_per_cluster
              = (rest.length - offset / fs.bytes_per_cluster + 1 +
                offset / fs.bytes_per_cluster) * fs.bytes_per_cluster := by ring
            _ = (rest.length + 1) * fs.bytes_per_cluster := by rw [h1]
        omega
      · omega

/-- A mounted FAT32 volume for the read-count witness: 512-byte sectors and
clusters, one FAT at byte 512 holding EndOfChain for cluster 2, data region
from sector 2, 20 total sectors. -/
def c6_fs : FileSystem :=
  { disk := writeU32 (fun _ => 0) 520 0x0FFFFFFF
    bpb :=
      { bytes_per_sector := 512
        sectors_per_cluster := 1
        rsvd_sec_cnt := 1
        num_fats := 1
        total_sectors_32 := 20
        fat_type := FATType.fat32 { fat_size := 1, ext_flags := 0, root_cluster := 2 } }
    partition_offset := 0
    first_data_sec := 2
    fs_info := FsInfo.default }

/-- A 300-byte file on the one-cluster chain at cluster 2. -/
def c6_file : File :=
  { first_cluster := 2
    short_dir_entry :=
      { dir_name := [72, 69, 76, 76, 79, 32, 32, 32, 84, 88, 84]
        file_attrs := 0x20
        fst_clus_lo := 2
        file_size := 300 }
    loc := ((3, 0), (3, 0)) }

/-- Claim C6 (witness): the count theorem applied to the 300-byte one-cluster
file, reading 100 bytes at offset 50: exactly 100 bytes are reported. -/
theorem c6_read_count_exact_witness :
    c6_file.read c6_fs 100 50 =
      if c6_file.size ≤ 50 then 0 else min 100 (c6_file.size - 50) :=
  c6_read_count_exact c6_file c6_fs 100 50 [] (by decide)
    (by simp) (by decide)

end RedoxFatfs
